import Mathlib

/-!
Verification of the ray-scheduling state machine of the Cycles split-kernel
path tracer, as excerpted in
`intern/cycles/kernel/split/kernel_background_buffer_update.h` and
`intern/cycles/kernel/split/kernel_lamp_emission.h`.

The per-slot bodies of the two kernels are shallowly embedded as pure Lean
functions over an explicit slot state.  Machine floats are modelled as
rationals (no claim under consideration depends on rounding), external
collaborators (background/lamp shading, camera-ray setup, radiance-accumulator
internals) are passed in as an `Externals` record of opaque functions, and the
compile-time feature toggles of the source (`__WORK_STEALING__`, `__PASSES__`,
`__BACKGROUND__`, `__LAMP_MIS__`) become a `BuildFlags` record, following the
design note that preprocessor branching maps to runtime configuration.
Observable side effects (state assignments, output-buffer writes, RNG-stream
finalization, work claims, queue appends) are recorded in an explicit event
list so that exactly-once properties can be stated by counting events.

Definitions whose doc comment starts with "Modelled from the spec:" embed
parts of the program that are referenced by the excerpt but whose code is not
part of it (the work-stealing pool internals, the data-initialization kernel,
the queue-append helper, the external integrator-state initializer); they
follow the specification's wording.
-/

namespace CyclesSplit

/-- A float triple (source `float3`), modelled over the rationals. -/
structure Float3 where
  x : Rat
  y : Rat
  z : Rat
deriving DecidableEq

/-- A four-channel float value (source `float4`): RGB plus alpha/coverage. -/
structure Float4 where
  x : Rat
  y : Rat
  z : Rat
  w : Rat
deriving DecidableEq

/-- Source `make_float3`. -/
def make_float3 (x y z : Rat) : Float3 := ⟨x, y, z⟩

/-- Source `make_float4`. -/
def make_float4 (x y z w : Rat) : Float4 := ⟨x, y, z, w⟩

/-- Component average of a `float3` (source util `average`). -/
def average (a : Float3) : Rat := (a.x + a.y + a.z) / 3

/-- Componentwise difference of two `float3`s. -/
def Float3.sub (a b : Float3) : Float3 := ⟨a.x - b.x, a.y - b.y, a.z - b.z⟩

/-- Scalar multiple of a `float3`. -/
def Float3.smul (c : Rat) (a : Float3) : Float3 := ⟨c * a.x, c * a.y, c * a.z⟩

/-- The ray-state tags of the split kernel (source `RAY_*` constants stored in
the `ray_state` array). -/
inductive RayState where
  | RAY_ACTIVE
  | RAY_HIT_BACKGROUND
  | RAY_UPDATE_BUFFER
  | RAY_TO_REGENERATE
  | RAY_REGENERATED
  | RAY_INACTIVE
deriving DecidableEq

open RayState

/-- Bit flagging a camera (zero-depth) ray inside `PathState::flag` (source
`PATH_RAY_CAMERA`; the concrete bit position is immaterial, only its use as a
mask matters). -/
def PATH_RAY_CAMERA : Nat := 1

/-- Bit in `kernel_data.film.pass_flag` enabling the background film pass
(source `PASS_BACKGROUND`). -/
def PASS_BACKGROUND : Nat := 2

/-- Source `PathState`: the integrator-state fields this excerpt touches. -/
structure PathState where
  flag : Nat
  bounce : Nat
  ray_t : Rat
deriving DecidableEq

/-- Source `Ray`: fields touched by the excerpted kernels.  The differentials
`dD`/`dP` are carried opaquely as triples. -/
structure Ray where
  P : Float3
  D : Float3
  t : Rat
  time : Rat
  dD : Float3
  dP : Float3
deriving DecidableEq

/-- The radiance accumulator (source `PathRadiance`).  Its internals are owned
by external collaborators (`path_radiance_*`), so only a carrier is fixed. -/
abbrev PathRadiance := Float3

/-- One ray slot of the ray pool: the per-`ray_index` entries of the split
state arrays (`ray_state`, `throughput`, `path_radiance`, `L_transparent`,
`path_state`, `ray`, `rng`, `work_array`). -/
structure SlotState where
  ray_state : RayState
  throughput : Float3
  L : PathRadiance
  L_transparent : Rat
  path_state : PathState
  ray : Ray
  rng : Nat
  work_array : Nat
deriving DecidableEq

/-- The compile-time feature toggles of the source, as runtime configuration:
`__WORK_STEALING__`, `__PASSES__`, `__BACKGROUND__`, `__LAMP_MIS__`. -/
structure BuildFlags where
  work_stealing : Bool
  passes : Bool
  background : Bool
  lamp_mis : Bool
deriving DecidableEq

/-- The `kernel_data` fields read by the excerpted kernels. -/
structure KernelData where
  background_transparent : Bool
  film_pass_flag : Nat
  film_pass_stride : Nat
  film_use_light_pass : Bool
  integrator_use_lamp_mis : Bool
deriving DecidableEq

/-- The `split_params` fields read by the excerpted kernels (`w`/`h`/`x`/`y`
are bound to locals `sw`/`sh`/`sx`/`sy` in the source). -/
structure SplitParams where
  w : Nat
  h : Nat
  x : Nat
  y : Nat
  stride : Nat
  rng_offset_x : Nat
  rng_offset_y : Nat
  rng_stride : Nat
  parallel_samples : Nat
  start_sample : Nat
  end_sample : Nat
  num_samples : Nat
deriving DecidableEq

/-- External collaborators invoked through opaque interfaces: scene/background
shading, radiance-accumulator operations, camera-ray and RNG setup.  Nothing
is assumed about these functions; concrete instances are supplied only when
evaluating the model on concrete inputs.  `kernel_path_trace_setup` takes the
rng-state offset, the sample and the pixel position and returns the fresh rng
cursor and camera ray. -/
structure Externals where
  indirect_background : PathState → Ray → Float3
  path_radiance_accum_background : PathRadiance → Float3 → Float3 → Nat → PathRadiance
  path_radiance_clamp_and_sum : PathRadiance → Float3
  path_radiance_init : Bool → PathRadiance
  kernel_path_trace_setup : Nat → Nat → Nat → Nat → Nat × Ray
  indirect_lamp_emission : PathState → Ray → Option Float3
  path_radiance_accum_emission : PathRadiance → Float3 → Float3 → Nat → PathRadiance

/-- Observable side effects of one kernel invocation on one slot, recorded in
program order: `ASSIGN_RAY_STATE` calls, `kernel_write_light_passes` and
`kernel_write_pass_float4` writes (buffer offset, sample, value written),
`path_rng_end` finalizations (rng-state offset, rng value), work-unit claims
(claimed token, pixel x, pixel y), and appends to the active queue. -/
inductive Event where
  | assign_state : RayState → Event
  | write_light_passes : Nat → Nat → Event
  | write_pass_float4 : Nat → Nat → Float4 → Event
  | rng_finalize : Nat → Nat → Event
  | claim_work : Nat → Nat → Nat → Event
  | enqueue_active : Nat → Event
deriving DecidableEq

/-- Whether an event is a combined-pass output-buffer write. -/
def Event.is_output_write : Event → Bool
  | .write_pass_float4 _ _ _ => true
  | _ => false

/-- Whether an event is a work-unit claim. -/
def Event.is_claim : Event → Bool
  | .claim_work _ _ _ => true
  | _ => false

/-- Offset into the `rng_state` buffer for a tile position (source line
`rng_state += (rng_state_offset_x + tile_x) + (rng_state_offset_y + tile_y) *
rng_state_stride`). -/
def rng_state_ofs (sp : SplitParams) (tile_x tile_y : Nat) : Nat :=
  (sp.rng_offset_x + tile_x) + (sp.rng_offset_y + tile_y) * sp.rng_stride

/-- Offset into `per_sample_output_buffers` for a tile position and
sample-within-tile (source line `per_sample_output_buffers += (((tile_x +
(tile_y * stride)) * parallel_samples) + my_sample_tile) *
kernel_data.film.pass_stride`). -/
def output_buffer_ofs (sp : SplitParams) (kd : KernelData)
    (tile_x tile_y my_sample_tile : Nat) : Nat :=
  ((tile_x + tile_y * sp.stride) * sp.parallel_samples + my_sample_tile) *
    kd.film_pass_stride

/-- Modelled from the spec: the work-stealing pool ("a shared per-tile atomic
counter tracks samples claimed so far"); `get_next_work`, `get_my_sample` and
`get_pixel_tile_position` live outside the excerpt, so the pool is one counter
shared by all lanes. -/
structure WorkPool where
  counter : Nat
deriving DecidableEq

/-- Modelled from the spec: `get_next_work` (not in the excerpt) atomically
increments the shared counter and returns the claimed token, "returning no
work once the counter would exceed the tile's sample budget"; the budget of a
`w*h`-pixel tile rendered with `num_samples` samples is `w*h*num_samples`. -/
def get_next_work (sp : SplitParams) (pool : WorkPool) : Option (Nat × WorkPool) :=
  if pool.counter < sp.w * sp.h * sp.num_samples then
    some (pool.counter, ⟨pool.counter + 1⟩)
  else
    none

/-- Modelled from the spec: `get_my_sample` (not in the excerpt) maps a work
token "to a (pixel, sample) pair via a fixed decomposition"; the sample index
is the token divided by the tile's pixel count. -/
def get_my_sample (my_work sw sh : Nat) : Nat := my_work / (sw * sh)

/-- Modelled from the spec: the pixel half of `get_pixel_tile_position`'s
fixed decomposition of a work token — the tile-relative pixel index is the
token modulo the tile's pixel count, split into x/y by the tile width.
Returns `(pixel_x, pixel_y, tile_x, tile_y)`. -/
def get_pixel_tile_position (my_work sw sh sx sy : Nat) : Nat × Nat × Nat × Nat :=
  let pixel_index := my_work % (sw * sh)
  let tile_x := pixel_index % sw
  let tile_y := pixel_index / sw
  (sx + tile_x, sy + tile_y, tile_x, tile_y)

/-- The static-partition work advance (source lines 210 and 230): the slot in
`RAY_TO_REGENERATE` goes inactive when `sample + parallel_samples` reaches
`end_sample`, otherwise its per-slot counter `work_array[ray_index]` advances
to `sample + parallel_samples`, which is the newly claimed sample. -/
def static_next_work (sp : SplitParams) (sample : Nat) : Option Nat :=
  if sp.end_sample ≤ sample + sp.parallel_samples then none
  else some (sample + sp.parallel_samples)

/-- The Work Distributor's "claim next work", as invoked by the
`RAY_TO_REGENERATE` phase (source lines 202-213): the shared-pool claim under
`__WORK_STEALING__`, the per-slot counter advance under the static partition
(the pool is untouched there). -/
def work_distributor_claim (flags : BuildFlags) (sp : SplitParams)
    (pool : WorkPool) (sample : Nat) : Option (Nat × WorkPool) :=
  if flags.work_stealing = true then
    get_next_work sp pool
  else
    match static_next_work sp sample with
    | none => none
    | some s => some (s, pool)

/-- The fixed pixel owned by a slot under the static partition (source lines
234-235): `pixel_x = sx + ((ray_index / parallel_samples) % sw)`,
`pixel_y = sy + ((ray_index / parallel_samples) / sw)`; it depends only on the
slot index and the configuration. -/
def static_pixel (sp : SplitParams) (ray_index : Nat) : Nat × Nat :=
  (sp.x + (ray_index / sp.parallel_samples) % sp.w,
   sp.y + (ray_index / sp.parallel_samples) / sp.w)

/-- Modelled from the spec: `path_state_init` (external integrator-state
initializer, not in the excerpt) prepares the state of a fresh camera ray:
the spec requires a "zero bounce count" and marks the path a camera ray. -/
def path_state_init (rng sample : Nat) (ray : Ray) : PathState :=
  { flag := PATH_RAY_CAMERA, bounce := 0, ray_t := 0 }

/-- Addressing state computed at kernel entry (source lines 136-164):
the sample of the slot's current work, its tile position, and the
sample-within-tile index. -/
structure EntryAddressing where
  sample : Nat
  tile_x : Nat
  tile_y : Nat
  my_sample_tile : Nat
deriving DecidableEq

/-- Entry addressing of `kernel_background_buffer_update` (source lines
136-161).  Work-stealing decomposes `work_array[ray_index]` via
`get_my_sample`/`get_pixel_tile_position`; the static partition derives the
tile from the slot index and reads the sample directly from
`work_array[ray_index]`. -/
def entry_addressing (flags : BuildFlags) (sp : SplitParams)
    (ray_index : Nat) (slot : SlotState) : EntryAddressing :=
  if flags.work_stealing = true then
    let my_work := slot.work_array
    let pos := get_pixel_tile_position my_work sp.w sp.h sp.x sp.y
    { sample := get_my_sample my_work sp.w sp.h + sp.start_sample,
      tile_x := pos.2.2.1, tile_y := pos.2.2.2, my_sample_tile := 0 }
  else
    let tile_index := ray_index / sp.parallel_samples
    { sample := slot.work_array,
      tile_x := tile_index % sp.w, tile_y := tile_index / sp.w,
      my_sample_tile := ray_index - tile_index * sp.parallel_samples }

/-- Addressing of a freshly claimed work unit: its sample, pixel position and
the output-buffer/rng-state offsets the regeneration writes through. -/
structure WorkAddressing where
  sample : Nat
  pixel_x : Nat
  pixel_y : Nat
  buf_ofs : Nat
  rng_ofs : Nat
deriving DecidableEq

/-- Addressing of the work unit `wk` claimed by the `RAY_TO_REGENERATE` phase
(source lines 216-236).  Under `__WORK_STEALING__` the sample, pixel and both
offsets are remapped from the claimed token (lines 217-228); under the static
partition the claimed sample is the token itself, the pixel is the slot's
fixed `static_pixel`, and the entry offsets are kept (the slot's tile never
changes, lines 230-235). -/
def claimed_addressing (flags : BuildFlags) (sp : SplitParams) (kd : KernelData)
    (ray_index wk entry_buf_ofs entry_rng_ofs : Nat) : WorkAddressing :=
  if flags.work_stealing = true then
    let pos := get_pixel_tile_position wk sp.w sp.h sp.x sp.y
    { sample := get_my_sample wk sp.w sp.h + sp.start_sample,
      pixel_x := pos.1, pixel_y := pos.2.1,
      buf_ofs := output_buffer_ofs sp kd pos.2.2.1 pos.2.2.2 0,
      rng_ofs := rng_state_ofs sp pos.2.2.1 pos.2.2.2 }
  else
    { sample := wk,
      pixel_x := (static_pixel sp ray_index).1,
      pixel_y := (static_pixel sp ray_index).2,
      buf_ofs := entry_buf_ofs, rng_ofs := entry_rng_ofs }

/-- The `RAY_HIT_BACKGROUND` phase of `kernel_background_buffer_update`
(source lines 166-184): fold the background contribution — into the
transparency accumulator for a camera ray under a transparent background
(skipping background shading unless the background film pass is enabled under
`__PASSES__`), otherwise into the radiance accumulator via the external
background shader — and advance to `RAY_UPDATE_BUFFER`. -/
def hb_phase (flags : BuildFlags) (ext : Externals) (kd : KernelData)
    (slot : SlotState) : SlotState × List Event :=
  if slot.ray_state = RAY_HIT_BACKGROUND then
    let step1 : SlotState × List Event :=
      if kd.background_transparent = true ∧ slot.path_state.flag &&& PATH_RAY_CAMERA ≠ 0 then
        let s1 := { slot with L_transparent := slot.L_transparent + average slot.throughput }
        if flags.passes = true ∧ kd.film_pass_flag &&& PASS_BACKGROUND ≠ 0 then
          (s1, [])
        else
          ({ s1 with ray_state := RAY_UPDATE_BUFFER },
           [Event.assign_state RAY_UPDATE_BUFFER])
      else (slot, [])
    if step1.1.ray_state = RAY_HIT_BACKGROUND then
      let s2 :=
        if flags.background = true then
          { step1.1 with
            L := ext.path_radiance_accum_background step1.1.L step1.1.throughput
                   (ext.indirect_background step1.1.path_state step1.1.ray)
                   step1.1.path_state.bounce }
        else step1.1
      ({ s2 with ray_state := RAY_UPDATE_BUFFER },
       step1.2 ++ [Event.assign_state RAY_UPDATE_BUFFER])
    else step1
  else (slot, [])

/-- The `RAY_UPDATE_BUFFER` phase of `kernel_background_buffer_update`
(source lines 186-199): clamp and sum the accumulated radiance, write the
light passes and the combined `float4` result (alpha `1 - L_transparent`) to
the per-sample output slot, finalize the RNG stream, advance to
`RAY_TO_REGENERATE`. -/
def ub_phase (ext : Externals) (buf_ofs rng_ofs sample : Nat)
    (slot : SlotState) : SlotState × List Event :=
  if slot.ray_state = RAY_UPDATE_BUFFER then
    let L_sum := ext.path_radiance_clamp_and_sum slot.L
    let L_rad := make_float4 L_sum.x L_sum.y L_sum.z (1 - slot.L_transparent)
    ({ slot with ray_state := RAY_TO_REGENERATE },
     [Event.write_light_passes buf_ofs sample,
      Event.write_pass_float4 buf_ofs sample L_rad,
      Event.rng_finalize rng_ofs slot.rng,
      Event.assign_state RAY_TO_REGENERATE])
  else (slot, [])

/-- The `RAY_TO_REGENERATE` phase of `kernel_background_buffer_update`
(source lines 201-265): ask the Work Distributor for the next work unit; with
no work the slot goes `RAY_INACTIVE`; otherwise a fresh camera ray is set up
for the claimed (pixel, sample) — a ray of non-zero extent resets
throughput/transparency/accumulator/path state and goes `RAY_REGENERATED`
(raising the enqueue flag), a zero-extent ray writes a zero contribution,
finalizes the RNG stream and stays `RAY_TO_REGENERATE`.  Arguments `sample`,
`buf_ofs`, `rng_ofs` are the entry addressing.  Returns the slot, the pool,
the events, and the enqueue flag. -/
def tr_phase (flags : BuildFlags) (ext : Externals) (sp : SplitParams)
    (kd : KernelData) (ray_index : Nat) (pool : WorkPool)
    (sample buf_ofs rng_ofs : Nat) (slot : SlotState) :
    SlotState × WorkPool × List Event × Bool :=
  if slot.ray_state = RAY_TO_REGENERATE then
    match work_distributor_claim flags sp pool sample with
    | none =>
        ({ slot with ray_state := RAY_INACTIVE }, pool,
         [Event.assign_state RAY_INACTIVE], false)
    | some (wk, pool') =>
        let addr := claimed_addressing flags sp kd ray_index wk buf_ofs rng_ofs
        let setup := ext.kernel_path_trace_setup addr.rng_ofs addr.sample
          addr.pixel_x addr.pixel_y
        let rng' := setup.1
        let ray' := setup.2
        if ray'.t ≠ 0 then
          ({ slot with
             ray_state := RAY_REGENERATED,
             work_array := wk,
             rng := rng',
             ray := ray',
             throughput := make_float3 1 1 1,
             L_transparent := 0,
             L := ext.path_radiance_init kd.film_use_light_pass,
             path_state := path_state_init rng' addr.sample ray' },
           pool',
           [Event.claim_work wk addr.pixel_x addr.pixel_y,
            Event.assign_state RAY_REGENERATED],
           true)
        else
          ({ slot with
             ray_state := RAY_TO_REGENERATE,
             work_array := wk,
             rng := rng',
             ray := ray' },
           pool',
           [Event.claim_work wk addr.pixel_x addr.pixel_y,
            Event.write_pass_float4 addr.buf_ofs addr.sample (make_float4 0 0 0 0),
            Event.rng_finalize addr.rng_ofs rng',
            Event.assign_state RAY_TO_REGENERATE],
           false)
  else (slot, pool, [], false)

/-- The output-buffer offset computed at kernel entry for a slot's current
work (source line 164). -/
def entry_buf_ofs (flags : BuildFlags) (sp : SplitParams) (kd : KernelData)
    (ray_index : Nat) (slot : SlotState) : Nat :=
  output_buffer_ofs sp kd (entry_addressing flags sp ray_index slot).tile_x
    (entry_addressing flags sp ray_index slot).tile_y
    (entry_addressing flags sp ray_index slot).my_sample_tile

/-- The rng-state offset computed at kernel entry for a slot's current work
(source line 163). -/
def entry_rng_ofs (flags : BuildFlags) (sp : SplitParams)
    (ray_index : Nat) (slot : SlotState) : Nat :=
  rng_state_ofs sp (entry_addressing flags sp ray_index slot).tile_x
    (entry_addressing flags sp ray_index slot).tile_y

/-- Addressing of the work unit `wk` as claimed by a regeneration that starts
from `slot`'s entry offsets. -/
def regen_addressing (flags : BuildFlags) (sp : SplitParams) (kd : KernelData)
    (ray_index : Nat) (slot : SlotState) (wk : Nat) : WorkAddressing :=
  claimed_addressing flags sp kd ray_index wk
    (entry_buf_ofs flags sp kd ray_index slot)
    (entry_rng_ofs flags sp ray_index slot)

/-- The `(rng, ray)` pair produced by `kernel_path_trace_setup` for the
claimed work unit `wk` during regeneration of `slot`. -/
def regen_setup (flags : BuildFlags) (ext : Externals) (sp : SplitParams)
    (kd : KernelData) (ray_index : Nat) (slot : SlotState) (wk : Nat) :
    Nat × Ray :=
  ext.kernel_path_trace_setup
    (regen_addressing flags sp kd ray_index slot wk).rng_ofs
    (regen_addressing flags sp kd ray_index slot wk).sample
    (regen_addressing flags sp kd ray_index slot wk).pixel_x
    (regen_addressing flags sp kd ray_index slot wk).pixel_y

/-- The full per-slot body of `kernel_background_buffer_update` (source lines
136-265): entry addressing followed by the three sequential state phases.  A
single invocation can cascade a slot through
`RAY_HIT_BACKGROUND → RAY_UPDATE_BUFFER → RAY_TO_REGENERATE → RAY_REGENERATED`
because the phases re-check the state tag in order.  Returns the slot, the
work pool, the recorded events, and the `enqueue_flag`. -/
def kernel_background_buffer_update_slot (flags : BuildFlags) (ext : Externals)
    (sp : SplitParams) (kd : KernelData) (ray_index : Nat) (pool : WorkPool)
    (slot : SlotState) : SlotState × WorkPool × List Event × Bool :=
  let addr := entry_addressing flags sp ray_index slot
  let r_ofs := entry_rng_ofs flags sp ray_index slot
  let b_ofs := entry_buf_ofs flags sp kd ray_index slot
  let hb := hb_phase flags ext kd slot
  let ub := ub_phase ext b_ofs r_ofs addr.sample hb.1
  let tr := tr_phase flags ext sp kd ray_index pool addr.sample b_ofs r_ofs ub.1
  (tr.1, tr.2.1, hb.2 ++ ub.2 ++ tr.2.2.1, tr.2.2.2)

/-- Modelled from the spec: `enqueue_ray_index_local` (called at source lines
274-280, implemented outside the excerpt) "atomically appends `slot_index`"
to the queue and "increments occupancy counter" when the enqueue flag is set;
otherwise the queue is untouched. -/
def enqueue_ray_index_local (ray_index : Nat) (flag : Bool)
    (queue_data : List Nat) (queue_index : Nat) : List Nat × Nat :=
  if flag = true then (queue_data ++ [ray_index], queue_index + 1)
  else (queue_data, queue_index)

/-- One thread of `kernel_background_buffer_update` together with its final
enqueue into `QUEUE_ACTIVE_AND_REGENERATED_RAYS` (source lines 271-281):
the per-slot body followed by `enqueue_ray_index_local` under the enqueue
flag.  Returns the slot, the pool, the events (an `enqueue_active` event is
appended exactly when the flag was raised), and the active queue. -/
def kernel_background_buffer_update_thread (flags : BuildFlags)
    (ext : Externals) (sp : SplitParams) (kd : KernelData) (ray_index : Nat)
    (pool : WorkPool) (slot : SlotState)
    (active_queue_data : List Nat) (active_queue_index : Nat) :
    SlotState × WorkPool × List Event × (List Nat × Nat) :=
  let body := kernel_background_buffer_update_slot flags ext sp kd ray_index pool slot
  let q := enqueue_ray_index_local ray_index body.2.2.2 active_queue_data active_queue_index
  (body.1, body.2.1,
   body.2.2.1 ++ (if body.2.2.2 = true then [Event.enqueue_active ray_index] else []),
   q)

/-- The per-slot body of `kernel_lamp_emission` (source lines 74-103): for a
slot in `RAY_ACTIVE` or `RAY_HIT_BACKGROUND`, under `__LAMP_MIS__` with lamp
MIS enabled and a non-camera path, reconstruct the ray segment since the
previous intersection (advancing the bookkeeping field `path_state.ray_t` by
the intersection distance `isect_t`), query the external lamp-emission
collaborator, and on a hit accumulate the weighted emission into the radiance
accumulator.  No state-tag assignment occurs anywhere in this kernel. -/
def kernel_lamp_emission_slot (flags : BuildFlags) (ext : Externals)
    (kd : KernelData) (isect_t : Rat) (slot : SlotState) : SlotState :=
  if slot.ray_state = RAY_ACTIVE ∨ slot.ray_state = RAY_HIT_BACKGROUND then
    if flags.lamp_mis = true ∧ kd.integrator_use_lamp_mis = true ∧
        slot.path_state.flag &&& PATH_RAY_CAMERA = 0 then
      let light_ray_P := Float3.sub slot.ray.P
        (Float3.smul slot.path_state.ray_t slot.ray.D)
      let new_ray_t := slot.path_state.ray_t + isect_t
      let light_ray : Ray :=
        { P := light_ray_P, D := slot.ray.D, t := new_ray_t,
          time := slot.ray.time, dD := slot.ray.dD, dP := slot.ray.dP }
      let state' := { slot.path_state with ray_t := new_ray_t }
      match ext.indirect_lamp_emission state' light_ray with
      | some emission =>
          { slot with
            path_state := state',
            L := ext.path_radiance_accum_emission slot.L slot.throughput
                   emission state'.bounce }
      | none => { slot with path_state := state' }
    else slot
  else slot

/-- The queue set visible to the two excerpted kernels:
`QUEUE_ACTIVE_AND_REGENERATED_RAYS` and
`QUEUE_HITBG_BUFF_UPDATE_TOREGEN_RAYS`, each a contents list plus an
occupancy counter (`Queue_data` / `Queue_index`). -/
structure QueueSet where
  active_data : List Nat
  active_index : Nat
  hitbg_data : List Nat
  hitbg_index : Nat
deriving DecidableEq

/-- The whole `kernel_lamp_emission` dispatch (source lines 39-104): the
first thread resets the occupancy counter of
`QUEUE_ACTIVE_AND_REGENERATED_RAYS` to zero (lines 45-47, "We will empty this
queue in this kernel"), and every processed slot undergoes the per-slot body.
`isect_t i` is the stored intersection distance `Intersection_coop[i].t` of
slot `i`. -/
def kernel_lamp_emission (flags : BuildFlags) (ext : Externals)
    (kd : KernelData) (isect_t : Nat → Rat) (qs : QueueSet)
    (slots : List SlotState) : QueueSet × List SlotState :=
  ({ qs with active_index := 0 },
   slots.enum.map (fun p => kernel_lamp_emission_slot flags ext kd (isect_t p.1) p.2))

/-- Modelled from the spec: under the static partition "each ray slot owns a
fixed (pixel, sample-within-pixel) range for its lifetime"; the
data-initialization kernel (not in the excerpt) assigns slot `ray_index` the
initial sample `start_sample + my_sample_tile`, with `my_sample_tile =
ray_index - (ray_index / parallel_samples) * parallel_samples` exactly as the
entry addressing recomputes it (source line 160). -/
def static_initial_sample (sp : SplitParams) (ray_index : Nat) : Nat :=
  sp.start_sample + (ray_index - ray_index / sp.parallel_samples * sp.parallel_samples)

/-- The samples claimed by iterating the static-partition work advance
`static_next_work` from a current sample, with enough fuel; over a full run
this is exactly the sequence of `RAY_TO_REGENERATE` reclaims of one slot,
since no other code path touches `work_array[ray_index]`. -/
def static_claims_from (sp : SplitParams) : Nat → Nat → List Nat
  | 0, _ => []
  | fuel + 1, s =>
    match static_next_work sp s with
    | none => []
    | some s' => s' :: static_claims_from sp fuel s'

/-- All samples a slot processes over a full static-partition run: its initial
sample (when in range) followed by every reclaim. -/
def static_slot_samples (sp : SplitParams) (fuel ray_index : Nat) : List Nat :=
  if static_initial_sample sp ray_index < sp.end_sample then
    static_initial_sample sp ray_index ::
      static_claims_from sp fuel (static_initial_sample sp ray_index)
  else []

/-- All (pixel, sample) pairs claimed over a full static-partition run by the
pool of `w*h*parallel_samples` ray slots; the pixel of slot `i` is its fixed
tile index `i / parallel_samples`. -/
def static_all_claims (sp : SplitParams) (fuel : Nat) : List (Nat × Nat) :=
  (List.range (sp.w * sp.h * sp.parallel_samples)).flatMap (fun i =>
    (static_slot_samples sp fuel i).map (fun s => (i / sp.parallel_samples, s)))

/-- The tokens handed out by iterating `get_next_work` on the shared
work-stealing pool until exhaustion.  The pool counter is mutated only by the
single atomic increment inside `get_next_work`, so any concurrent full run is
a serialization of exactly these claims. -/
def pool_claims (sp : SplitParams) : Nat → WorkPool → List Nat
  | 0, _ => []
  | fuel + 1, pool =>
    match get_next_work sp pool with
    | none => []
    | some (wk, pool') => wk :: pool_claims sp fuel pool'

/-- The (pixel, sample) pair of a work-stealing token, by the fixed
decomposition of `get_my_sample`/`get_pixel_tile_position`: the tile-relative
pixel index is the token modulo the pixel count, the sample is
`start_sample + get_my_sample`. -/
def ws_claim_pair (sp : SplitParams) (wk : Nat) : Nat × Nat :=
  (wk % (sp.w * sp.h), sp.start_sample + get_my_sample wk sp.w sp.h)

/-- All (pixel, sample) pairs handed out over a full work-stealing run:
every token of the exhausted pool, decomposed. -/
def ws_all_claims (sp : SplitParams) (fuel : Nat) : List (Nat × Nat) :=
  (pool_claims sp fuel ⟨0⟩).map (ws_claim_pair sp)

/-! Concrete configurations and collaborator instances, used to evaluate the
model on concrete inputs (witnesses and counterexamples). -/

/-- A small concrete render configuration: a 2x2 tile, two parallel samples,
sample range [0, 4). -/
def spDemo : SplitParams :=
  { w := 2, h := 2, x := 10, y := 20, stride := 2,
    rng_offset_x := 0, rng_offset_y := 0, rng_stride := 2,
    parallel_samples := 2, start_sample := 0, end_sample := 4, num_samples := 4 }

/-- Kernel data with an opaque (non-transparent) background and no film
passes. -/
def kdDemo : KernelData :=
  { background_transparent := false, film_pass_flag := 0, film_pass_stride := 1,
    film_use_light_pass := false, integrator_use_lamp_mis := true }

/-- Kernel data with a transparent background and the background film pass
enabled. -/
def kdTransparentPassBG : KernelData :=
  { background_transparent := true, film_pass_flag := PASS_BACKGROUND,
    film_pass_stride := 1, film_use_light_pass := false,
    integrator_use_lamp_mis := true }

/-- Kernel data with a transparent background and no film passes. -/
def kdTransparent : KernelData :=
  { background_transparent := true, film_pass_flag := 0, film_pass_stride := 1,
    film_use_light_pass := false, integrator_use_lamp_mis := true }

/-- The static-partition build with all other features enabled. -/
def flagsStatic : BuildFlags :=
  { work_stealing := false, passes := true, background := true, lamp_mis := true }

/-- The work-stealing build with all other features enabled. -/
def flagsWS : BuildFlags :=
  { work_stealing := true, passes := true, background := true, lamp_mis := true }

/-- A concrete instance of the external collaborators whose camera rays all
have non-zero extent. -/
def extDemo : Externals :=
  { indirect_background := fun _ _ => make_float3 2 2 2,
    path_radiance_accum_background := fun L tp bg _ =>
      make_float3 (L.x + tp.x * bg.x) (L.y + tp.y * bg.y) (L.z + tp.z * bg.z),
    path_radiance_clamp_and_sum := fun L => L,
    path_radiance_init := fun _ => make_float3 0 0 0,
    kernel_path_trace_setup := fun r s px py =>
      (r + s + px + py,
       { P := make_float3 0 0 0, D := make_float3 0 0 1, t := 1, time := 0,
         dD := make_float3 0 0 0, dP := make_float3 0 0 0 }),
    indirect_lamp_emission := fun _ _ => some (make_float3 1 1 1),
    path_radiance_accum_emission := fun L tp em _ =>
      make_float3 (L.x + tp.x * em.x) (L.y + tp.y * em.y) (L.z + tp.z * em.z) }

/-- A concrete instance of the external collaborators whose camera rays all
degenerate to zero extent. -/
def extDegenerate : Externals :=
  { extDemo with
    kernel_path_trace_setup := fun r s px py =>
      (r + s + px + py,
       { P := make_float3 0 0 0, D := make_float3 0 0 1, t := 0, time := 0,
         dD := make_float3 0 0 0, dP := make_float3 0 0 0 }) }

/-- A neutral path state: non-camera path, two bounces in. -/
def psDemo : PathState := { flag := 0, bounce := 2, ray_t := 3 }

/-- A concrete ray. -/
def rayDemo : Ray :=
  { P := make_float3 5 6 7, D := make_float3 0 0 1, t := 100, time := 0,
    dD := make_float3 0 0 0, dP := make_float3 0 0 0 }

/-- A slot that has just hit the background on a non-camera path. -/
def slotHB : SlotState :=
  { ray_state := RayState.RAY_HIT_BACKGROUND, throughput := make_float3 1 1 1,
    L := make_float3 0 0 0, L_transparent := 0, path_state := psDemo,
    ray := rayDemo, rng := 7, work_array := 0 }

/-- A slot that has just hit the background on a camera path. -/
def slotHBCamera : SlotState :=
  { slotHB with path_state := { flag := PATH_RAY_CAMERA, bounce := 0, ray_t := 0 } }

/-- A slot awaiting regeneration with current sample 0. -/
def slotTR : SlotState :=
  { slotHB with ray_state := RayState.RAY_TO_REGENERATE }

/-- The demo configuration with a longer sample range [0, 10). -/
def spLong : SplitParams := { spDemo with end_sample := 10, num_samples := 10 }

/-! Helper lemmas about the individual phases, shared by the claim
theorems. -/

theorem hb_phase_skip (flags : BuildFlags) (ext : Externals) (kd : KernelData)
    (slot : SlotState) (h : ¬slot.ray_state = RAY_HIT_BACKGROUND) :
    hb_phase flags ext kd slot = (slot, []) := by
  simp [hb_phase, h]

theorem hb_phase_run (flags : BuildFlags) (ext : Externals) (kd : KernelData)
    (slot : SlotState) (h : slot.ray_state = RAY_HIT_BACKGROUND) :
    (hb_phase flags ext kd slot).1.ray_state = RAY_UPDATE_BUFFER ∧
    (hb_phase flags ext kd slot).2 = [Event.assign_state RAY_UPDATE_BUFFER] := by
  simp only [hb_phase, h, if_true]
  split_ifs <;> simp_all

theorem ub_phase_skip (ext : Externals) (buf_ofs rng_ofs sample : Nat)
    (slot : SlotState) (h : ¬slot.ray_state = RAY_UPDATE_BUFFER) :
    ub_phase ext buf_ofs rng_ofs sample slot = (slot, []) := by
  simp [ub_phase, h]

theorem ub_phase_run (ext : Externals) (buf_ofs rng_ofs sample : Nat)
    (slot : SlotState) (h : slot.ray_state = RAY_UPDATE_BUFFER) :
    ub_phase ext buf_ofs rng_ofs sample slot =
      ({ slot with ray_state := RAY_TO_REGENERATE },
       [Event.write_light_passes buf_ofs sample,
        Event.write_pass_float4 buf_ofs sample
          (make_float4 (ext.path_radiance_clamp_and_sum slot.L).x
            (ext.path_radiance_clamp_and_sum slot.L).y
            (ext.path_radiance_clamp_and_sum slot.L).z
            (1 - slot.L_transparent)),
        Event.rng_finalize rng_ofs slot.rng,
        Event.assign_state RAY_TO_REGENERATE]) := by
  simp [ub_phase, h]

theorem tr_phase_skip (flags : BuildFlags) (ext : Externals) (sp : SplitParams)
    (kd : KernelData) (ray_index : Nat) (pool : WorkPool)
    (sample buf_ofs rng_ofs : Nat) (slot : SlotState)
    (h : ¬slot.ray_state = RAY_TO_REGENERATE) :
    tr_phase flags ext sp kd ray_index pool sample buf_ofs rng_ofs slot =
      (slot, pool, [], false) := by
  simp [tr_phase, h]

theorem ub_phase_no_ub_assign (ext : Externals) (buf_ofs rng_ofs sample : Nat)
    (slot : SlotState) :
    ((ub_phase ext buf_ofs rng_ofs sample slot).2).count
      (Event.assign_state RAY_UPDATE_BUFFER) = 0 := by
  by_cases h : slot.ray_state = RAY_UPDATE_BUFFER
  · simp [ub_phase_run ext buf_ofs rng_ofs sample slot h, List.count_cons]
  · simp [ub_phase_skip ext buf_ofs rng_ofs sample slot h]

theorem tr_phase_no_ub_assign (flags : BuildFlags) (ext : Externals)
    (sp : SplitParams) (kd : KernelData) (ray_index : Nat) (pool : WorkPool)
    (sample buf_ofs rng_ofs : Nat) (slot : SlotState) :
    ((tr_phase flags ext sp kd ray_index pool sample buf_ofs rng_ofs slot).2.2.1).count
      (Event.assign_state RAY_UPDATE_BUFFER) = 0 := by
  unfold tr_phase
  split_ifs with h
  · cases hw : work_distributor_claim flags sp pool sample with
    | none => simp [hw, List.count_cons]
    | some p =>
        cases p with
        | mk wk pool' =>
            simp only [hw]
            split_ifs <;> simp [List.count_cons]
  · simp

theorem tr_phase_no_work (flags : BuildFlags) (ext : Externals)
    (sp : SplitParams) (kd : KernelData) (ray_index : Nat) (pool : WorkPool)
    (sample buf_ofs rng_ofs : Nat) (slot : SlotState)
    (h : slot.ray_state = RAY_TO_REGENERATE)
    (hw : work_distributor_claim flags sp pool sample = none) :
    tr_phase flags ext sp kd ray_index pool sample buf_ofs rng_ofs slot =
      ({ slot with ray_state := RAY_INACTIVE }, pool,
       [Event.assign_state RAY_INACTIVE], false) := by
  simp [tr_phase, h, hw]

theorem tr_phase_regenerated (flags : BuildFlags) (ext : Externals)
    (sp : SplitParams) (kd : KernelData) (ray_index : Nat) (pool : WorkPool)
    (sample buf_ofs rng_ofs : Nat) (slot : SlotState) (wk : Nat) (pool' : WorkPool)
    (h : slot.ray_state = RAY_TO_REGENERATE)
    (hw : work_distributor_claim flags sp pool sample = some (wk, pool'))
    (ht : (ext.kernel_path_trace_setup
        (claimed_addressing flags sp kd ray_index wk buf_ofs rng_ofs).rng_ofs
        (claimed_addressing flags sp kd ray_index wk buf_ofs rng_ofs).sample
        (claimed_addressing flags sp kd ray_index wk buf_ofs rng_ofs).pixel_x
        (claimed_addressing flags sp kd ray_index wk buf_ofs rng_ofs).pixel_y).2.t ≠ 0) :
    tr_phase flags ext sp kd ray_index pool sample buf_ofs rng_ofs slot =
      ({ slot with
         ray_state := RAY_REGENERATED,
         work_array := wk,
         rng := (ext.kernel_path_trace_setup
           (claimed_addressing flags sp kd ray_index wk buf_ofs rng_ofs).rng_ofs
           (claimed_addressing flags sp kd ray_index wk buf_ofs rng_ofs).sample
           (claimed_addressing flags sp kd ray_index wk buf_ofs rng_ofs).pixel_x
           (claimed_addressing flags sp kd ray_index wk buf_ofs rng_ofs).pixel_y).1,
         ray := (ext.kernel_path_trace_setup
           (claimed_addressing flags sp kd ray_index wk buf_ofs rng_ofs).rng_ofs
           (claimed_addressing flags sp kd ray_index wk buf_ofs rng_ofs).sample
           (claimed_addressing flags sp kd ray_index wk buf_ofs rng_ofs).pixel_x
           (claimed_addressing flags sp kd ray_index wk buf_ofs rng_ofs).pixel_y).2,
         throughput := make_float3 1 1 1,
         L_transparent := 0,
         L := ext.path_radiance_init kd.film_use_light_pass,
         path_state := path_state_init (ext.kernel_path_trace_setup
           (claimed_addressing flags sp kd ray_index wk buf_ofs rng_ofs).rng_ofs
           (claimed_addressing flags sp kd ray_index wk buf_ofs rng_ofs).sample
           (claimed_addressing flags sp kd ray_index wk buf_ofs rng_ofs).pixel_x
           (claimed_addressing flags sp kd ray_index wk buf_ofs rng_ofs).pixel_y).1
           (claimed_addressing flags sp kd ray_index wk buf_ofs rng_ofs).sample
           (ext.kernel_path_trace_setup
           (claimed_addressing flags sp kd ray_index wk buf_ofs rng_ofs).rng_ofs
           (claimed_addressing flags sp kd ray_index wk buf_ofs rng_ofs).sample
           (claimed_addressing flags sp kd ray_index wk buf_ofs rng_ofs).pixel_x
           (claimed_addressing flags sp kd ray_index wk buf_ofs rng_ofs).pixel_y).2 },
       pool',
       [Event.claim_work wk
          (claimed_addressing flags sp kd ray_index wk buf_ofs rng_ofs).pixel_x
          (claimed_addressing flags sp kd ray_index wk buf_ofs rng_ofs).pixel_y,
        Event.assign_state RAY_REGENERATED],
       true) := by
  simp [tr_phase, h, hw, ht]

theorem tr_phase_degenerate (flags : BuildFlags) (ext : Externals)
    (sp : SplitParams) (kd : KernelData) (ray_index : Nat) (pool : WorkPool)
    (sample buf_ofs rng_ofs : Nat) (slot : SlotState) (wk : Nat) (pool' : WorkPool)
    (h : slot.ray_state = RAY_TO_REGENERATE)
    (hw : work_distributor_claim flags sp pool sample = some (wk, pool'))
    (ht : (ext.kernel_path_trace_setup
        (claimed_addressing flags sp kd ray_index wk buf_ofs rng_ofs).rng_ofs
        (claimed_addressing flags sp kd ray_index wk buf_ofs rng_ofs).sample
        (claimed_addressing flags sp kd ray_index wk buf_ofs rng_ofs).pixel_x
        (claimed_addressing flags sp kd ray_index wk buf_ofs rng_ofs).pixel_y).2.t = 0) :
    tr_phase flags ext sp kd ray_index pool sample buf_ofs rng_ofs slot =
      ({ slot with
         ray_state := RAY_TO_REGENERATE,
         work_array := wk,
         rng := (ext.kernel_path_trace_setup
           (claimed_addressing flags sp kd ray_index wk buf_ofs rng_ofs).rng_ofs
           (claimed_addressing flags sp kd ray_index wk buf_ofs rng_ofs).sample
           (claimed_addressing flags sp kd ray_index wk buf_ofs rng_ofs).pixel_x
           (claimed_addressing flags sp kd ray_index wk buf_ofs rng_ofs).pixel_y).1,
         ray := (ext.kernel_path_trace_setup
           (claimed_addressing flags sp kd ray_index wk buf_ofs rng_ofs).rng_ofs
           (claimed_addressing flags sp kd ray_index wk buf_ofs rng_ofs).sample
           (claimed_addressing flags sp kd ray_index wk buf_ofs rng_ofs).pixel_x
           (claimed_addressing flags sp kd ray_index wk buf_ofs rng_ofs).pixel_y).2 },
       pool',
       [Event.claim_work wk
          (claimed_addressing flags sp kd ray_index wk buf_ofs rng_ofs).pixel_x
          (claimed_addressing flags sp kd ray_index wk buf_ofs rng_ofs).pixel_y,
        Event.write_pass_float4
          (claimed_addressing flags sp kd ray_index wk buf_ofs rng_ofs).buf_ofs
          (claimed_addressing flags sp kd ray_index wk buf_ofs rng_ofs).sample
          (make_float4 0 0 0 0),
        Event.rng_finalize
          (claimed_addressing flags sp kd ray_index wk buf_ofs rng_ofs).rng_ofs
          (ext.kernel_path_trace_setup
            (claimed_addressing flags sp kd ray_index wk buf_ofs rng_ofs).rng_ofs
            (claimed_addressing flags sp kd ray_index wk buf_ofs rng_ofs).sample
            (claimed_addressing flags sp kd ray_index wk buf_ofs rng_ofs).pixel_x
            (claimed_addressing flags sp kd ray_index wk buf_ofs rng_ofs).pixel_y).1,
        Event.assign_state RAY_TO_REGENERATE],
       false) := by
  simp [tr_phase, h, hw, ht]

theorem step_from_tr (flags : BuildFlags) (ext : Externals) (sp : SplitParams)
    (kd : KernelData) (ray_index : Nat) (pool : WorkPool) (slot : SlotState)
    (h : slot.ray_state = RAY_TO_REGENERATE) :
    kernel_background_buffer_update_slot flags ext sp kd ray_index pool slot =
      tr_phase flags ext sp kd ray_index pool
        (entry_addressing flags sp ray_index slot).sample
        (entry_buf_ofs flags sp kd ray_index slot)
        (entry_rng_ofs flags sp ray_index slot) slot := by
  have h1 : ¬slot.ray_state = RAY_HIT_BACKGROUND := by rw [h]; intro hx; cases hx
  have h2 : ¬slot.ray_state = RAY_UPDATE_BUFFER := by rw [h]; intro hx; cases hx
  simp [kernel_background_buffer_update_slot,
    hb_phase_skip flags ext kd slot h1,
    ub_phase_skip ext _ _ _ slot h2]

theorem phases_funnel_to_tr (flags : BuildFlags) (ext : Externals)
    (kd : KernelData) (buf_ofs rng_ofs sample : Nat) (slot : SlotState)
    (h : slot.ray_state = RAY_HIT_BACKGROUND ∨ slot.ray_state = RAY_UPDATE_BUFFER ∨
         slot.ray_state = RAY_TO_REGENERATE) :
    ((ub_phase ext buf_ofs rng_ofs sample (hb_phase flags ext kd slot).1).1).ray_state =
      RAY_TO_REGENERATE := by
  rcases h with h | h | h
  · obtain ⟨hst, _⟩ := hb_phase_run flags ext kd slot h
    rw [ub_phase_run ext buf_ofs rng_ofs sample _ hst]
  · have h1 : ¬slot.ray_state = RAY_HIT_BACKGROUND := by rw [h]; intro hx; cases hx
    rw [hb_phase_skip flags ext kd slot h1]
    rw [ub_phase_run ext buf_ofs rng_ofs sample slot h]
  · have h1 : ¬slot.ray_state = RAY_HIT_BACKGROUND := by rw [h]; intro hx; cases hx
    have h2 : ¬slot.ray_state = RAY_UPDATE_BUFFER := by rw [h]; intro hx; cases hx
    rw [hb_phase_skip flags ext kd slot h1]
    rw [ub_phase_skip ext buf_ofs rng_ofs sample slot h2]
    exact h

theorem hb_phase_no_claim (flags : BuildFlags) (ext : Externals)
    (kd : KernelData) (slot : SlotState) :
    ((hb_phase flags ext kd slot).2).countP Event.is_claim = 0 := by
  by_cases h : slot.ray_state = RAY_HIT_BACKGROUND
  · obtain ⟨_, hev⟩ := hb_phase_run flags ext kd slot h
    simp [hev, Event.is_claim]
  · simp [hb_phase_skip flags ext kd slot h]

theorem ub_phase_no_claim (ext : Externals) (buf_ofs rng_ofs sample : Nat)
    (slot : SlotState) :
    ((ub_phase ext buf_ofs rng_ofs sample slot).2).countP Event.is_claim = 0 := by
  by_cases h : slot.ray_state = RAY_UPDATE_BUFFER
  · rw [ub_phase_run ext buf_ofs rng_ofs sample slot h]
    simp [Event.is_claim]
  · simp [ub_phase_skip ext buf_ofs rng_ofs sample slot h]

theorem entry_addressing_static (flags : BuildFlags) (sp : SplitParams)
    (ray_index : Nat) (slot : SlotState) (hws : flags.work_stealing = false) :
    (entry_addressing flags sp ray_index slot).sample = slot.work_array := by
  simp [entry_addressing, hws]

theorem work_distributor_claim_static (flags : BuildFlags) (sp : SplitParams)
    (pool : WorkPool) (sample : Nat) (hws : flags.work_stealing = false) :
    work_distributor_claim flags sp pool sample =
      match static_next_work sp sample with
      | none => none
      | some s => some (s, pool) := by
  simp [work_distributor_claim, hws]

theorem claimed_addressing_static (flags : BuildFlags) (sp : SplitParams)
    (kd : KernelData) (ray_index wk buf_ofs rng_ofs : Nat)
    (hws : flags.work_stealing = false) :
    claimed_addressing flags sp kd ray_index wk buf_ofs rng_ofs =
      { sample := wk,
        pixel_x := (static_pixel sp ray_index).1,
        pixel_y := (static_pixel sp ray_index).2,
        buf_ofs := buf_ofs, rng_ofs := rng_ofs } := by
  simp [claimed_addressing, hws]

theorem kernel_background_buffer_update_slot_eq (flags : BuildFlags)
    (ext : Externals) (sp : SplitParams) (kd : KernelData) (ray_index : Nat)
    (pool : WorkPool) (slot : SlotState) :
    kernel_background_buffer_update_slot flags ext sp kd ray_index pool slot =
      ((tr_phase flags ext sp kd ray_index pool
          (entry_addressing flags sp ray_index slot).sample
          (entry_buf_ofs flags sp kd ray_index slot)
          (entry_rng_ofs flags sp ray_index slot)
          (ub_phase ext (entry_buf_ofs flags sp kd ray_index slot)
            (entry_rng_ofs flags sp ray_index slot)
            (entry_addressing flags sp ray_index slot).sample
            (hb_phase flags ext kd slot).1).1).1,
       (tr_phase flags ext sp kd ray_index pool
          (entry_addressing flags sp ray_index slot).sample
          (entry_buf_ofs flags sp kd ray_index slot)
          (entry_rng_ofs flags sp ray_index slot)
          (ub_phase ext (entry_buf_ofs flags sp kd ray_index slot)
            (entry_rng_ofs flags sp ray_index slot)
            (entry_addressing flags sp ray_index slot).sample
            (hb_phase flags ext kd slot).1).1).2.1,
       (hb_phase flags ext kd slot).2 ++
         (ub_phase ext (entry_buf_ofs flags sp kd ray_index slot)
            (entry_rng_ofs flags sp ray_index slot)
            (entry_addressing flags sp ray_index slot).sample
            (hb_phase flags ext kd slot).1).2 ++
         (tr_phase flags ext sp kd ray_index pool
          (entry_addressing flags sp ray_index slot).sample
          (entry_buf_ofs flags sp kd ray_index slot)
          (entry_rng_ofs flags sp ray_index slot)
          (ub_phase ext (entry_buf_ofs flags sp kd ray_index slot)
            (entry_rng_ofs flags sp ray_index slot)
            (entry_addressing flags sp ray_index slot).sample
            (hb_phase flags ext kd slot).1).1).2.2.1,
       (tr_phase flags ext sp kd ray_index pool
          (entry_addressing flags sp ray_index slot).sample
          (entry_buf_ofs flags sp kd ray_index slot)
          (entry_rng_ofs flags sp ray_index slot)
          (ub_phase ext (entry_buf_ofs flags sp kd ray_index slot)
            (entry_rng_ofs flags sp ray_index slot)
            (entry_addressing flags sp ray_index slot).sample
            (hb_phase flags ext kd slot).1).1).2.2.2) := rfl

theorem tr_phase_outcomes (flags : BuildFlags) (ext : Externals)
    (sp : SplitParams) (kd : KernelData) (ray_index : Nat) (pool : WorkPool)
    (sample buf_ofs rng_ofs : Nat) (slot : SlotState)
    (h : slot.ray_state = RAY_TO_REGENERATE) :
    ((tr_phase flags ext sp kd ray_index pool sample buf_ofs rng_ofs slot).1.ray_state =
        RAY_INACTIVE ∨
     (tr_phase flags ext sp kd ray_index pool sample buf_ofs rng_ofs slot).1.ray_state =
        RAY_REGENERATED ∨
     (tr_phase flags ext sp kd ray_index pool sample buf_ofs rng_ofs slot).1.ray_state =
        RAY_TO_REGENERATE) ∧
    ((tr_phase flags ext sp kd ray_index pool sample buf_ofs rng_ofs slot).1.ray_state =
        RAY_TO_REGENERATE →
      (∃ b s, Event.write_pass_float4 b s (make_float4 0 0 0 0) ∈
        (tr_phase flags ext sp kd ray_index pool sample buf_ofs rng_ofs slot).2.2.1) ∧
      ((tr_phase flags ext sp kd ray_index pool sample buf_ofs rng_ofs slot).2.2.1).countP
        Event.is_claim = 1) := by
  cases hw : work_distributor_claim flags sp pool sample with
  | none =>
      rw [tr_phase_no_work flags ext sp kd ray_index pool sample buf_ofs rng_ofs slot h hw]
      simp
  | some p =>
      obtain ⟨wk, pool'⟩ := p
      by_cases ht : (ext.kernel_path_trace_setup
          (claimed_addressing flags sp kd ray_index wk buf_ofs rng_ofs).rng_ofs
          (claimed_addressing flags sp kd ray_index wk buf_ofs rng_ofs).sample
          (claimed_addressing flags sp kd ray_index wk buf_ofs rng_ofs).pixel_x
          (claimed_addressing flags sp kd ray_index wk buf_ofs rng_ofs).pixel_y).2.t = 0
      · rw [tr_phase_degenerate flags ext sp kd ray_index pool sample buf_ofs rng_ofs
          slot wk pool' h hw ht]
        refine ⟨by simp, fun _ => ⟨?_, ?_⟩⟩
        · exact ⟨(claimed_addressing flags sp kd ray_index wk buf_ofs rng_ofs).buf_ofs,
            (claimed_addressing flags sp kd ray_index wk buf_ofs rng_ofs).sample,
            by simp⟩
        · simp [List.countP_cons, Event.is_claim]
      · rw [tr_phase_regenerated flags ext sp kd ray_index pool sample buf_ofs rng_ofs
          slot wk pool' h hw ht]
        simp

/-- Claim C2: a slot processed while in `RAY_HIT_BACKGROUND` always exits the
background phase in `RAY_UPDATE_BUFFER`, the invocation performs exactly one
transition into `RAY_UPDATE_BUFFER` (never zero, never two), and — whenever
the transparent-background/camera special case does not redirect the
contribution — the background/lamp contribution is folded into the slot's
radiance accumulator before the transition. -/
theorem hit_background_always_advances_to_update_buffer
    (flags : BuildFlags) (ext : Externals) (sp : SplitParams) (kd : KernelData)
    (ray_index : Nat) (pool : WorkPool) (slot : SlotState)
    (h : slot.ray_state = RAY_HIT_BACKGROUND) :
    (hb_phase flags ext kd slot).1.ray_state = RAY_UPDATE_BUFFER ∧
    ((kernel_background_buffer_update_slot flags ext sp kd ray_index pool slot).2.2.1).count
        (Event.assign_state RAY_UPDATE_BUFFER) = 1 ∧
    (flags.background = true →
      ¬(kd.background_transparent = true ∧ slot.path_state.flag &&& PATH_RAY_CAMERA ≠ 0) →
      (hb_phase flags ext kd slot).1.L =
        ext.path_radiance_accum_background slot.L slot.throughput
          (ext.indirect_background slot.path_state slot.ray)
          slot.path_state.bounce) := by
  obtain ⟨hstate, hevents⟩ := hb_phase_run flags ext kd slot h
  refine ⟨hstate, ?_, ?_⟩
  · simp only [kernel_background_buffer_update_slot, List.count_append, hevents]
    rw [ub_phase_no_ub_assign, tr_phase_no_ub_assign]
    simp [List.count_cons]
  · intro hbg hnt
    simp only [hb_phase, h, if_true]
    rw [if_neg hnt]
    simp [h, hbg]

/-- Witness for C2 at a concrete non-camera background hit. -/
theorem hit_background_always_advances_to_update_buffer_holds :
    slotHB.ray_state = RAY_HIT_BACKGROUND ∧
    ((hb_phase flagsStatic extDemo kdDemo slotHB).1.ray_state = RAY_UPDATE_BUFFER ∧
     ((kernel_background_buffer_update_slot flagsStatic extDemo spDemo kdDemo 3 ⟨0⟩ slotHB).2.2.1).count
         (Event.assign_state RAY_UPDATE_BUFFER) = 1 ∧
     (flagsStatic.background = true →
       ¬(kdDemo.background_transparent = true ∧ slotHB.path_state.flag &&& PATH_RAY_CAMERA ≠ 0) →
       (hb_phase flagsStatic extDemo kdDemo slotHB).1.L =
         extDemo.path_radiance_accum_background slotHB.L slotHB.throughput
           (extDemo.indirect_background slotHB.path_state slotHB.ray)
           slotHB.path_state.bounce)) :=
  ⟨by decide,
   hit_background_always_advances_to_update_buffer flagsStatic extDemo spDemo
     kdDemo 3 ⟨0⟩ slotHB (by decide)⟩

/-- Counterexample to claim C3 as stated: in a `__PASSES__` build with the
background film pass enabled, a camera ray under a transparent background
does NOT "skip direct background shading entirely" — the background shader's
contribution is still accumulated into the radiance accumulator (source lines
171-183: the `RAY_UPDATE_BUFFER` assignment is skipped when
`PASS_BACKGROUND` is set, so the second block still runs the background
shader). -/
theorem transparent_camera_shading_not_skipped :
    kdTransparentPassBG.background_transparent = true ∧
    slotHBCamera.ray_state = RAY_HIT_BACKGROUND ∧
    slotHBCamera.path_state.flag &&& PATH_RAY_CAMERA ≠ 0 ∧
    (hb_phase flagsStatic extDemo kdTransparentPassBG slotHBCamera).1.L ≠
      slotHBCamera.L := by
  refine ⟨rfl, rfl, by decide, fun hcontra => ?_⟩
  have hx := congrArg Float3.x hcontra
  norm_num [hb_phase, flagsStatic, extDemo, kdTransparentPassBG, slotHBCamera,
    slotHB, psDemo, rayDemo, PASS_BACKGROUND, PATH_RAY_CAMERA, average,
    make_float3] at hx

/-- Claim C3 (amended): for a slot in `RAY_HIT_BACKGROUND` with the
transparent-background policy active and a zero-depth (camera) path, the
stage folds the throughput into the transparency accumulator; and — unless
the build has `__PASSES__` with the background film pass enabled — it skips
direct background shading entirely (the radiance accumulator is untouched)
and advances to `RAY_UPDATE_BUFFER`. -/
theorem transparent_camera_folds_transparency
    (flags : BuildFlags) (ext : Externals) (kd : KernelData) (slot : SlotState)
    (h : slot.ray_state = RAY_HIT_BACKGROUND)
    (ht : kd.background_transparent = true)
    (hc : slot.path_state.flag &&& PATH_RAY_CAMERA ≠ 0) :
    (hb_phase flags ext kd slot).1.L_transparent =
      slot.L_transparent + average slot.throughput ∧
    (¬(flags.passes = true ∧ kd.film_pass_flag &&& PASS_BACKGROUND ≠ 0) →
      (hb_phase flags ext kd slot).1.L = slot.L ∧
      (hb_phase flags ext kd slot).1.ray_state = RAY_UPDATE_BUFFER) := by
  constructor
  · simp only [hb_phase, h, if_true]
    split_ifs <;> simp_all
  · intro hp
    simp only [hb_phase, h, if_true]
    split_ifs <;> simp_all

/-- Witness for the amended C3 at a concrete camera ray under a transparent
background without film passes. -/
theorem transparent_camera_folds_transparency_holds :
    (slotHBCamera.ray_state = RAY_HIT_BACKGROUND ∧
     kdTransparent.background_transparent = true ∧
     slotHBCamera.path_state.flag &&& PATH_RAY_CAMERA ≠ 0) ∧
    ((hb_phase flagsStatic extDemo kdTransparent slotHBCamera).1.L_transparent =
       slotHBCamera.L_transparent + average slotHBCamera.throughput ∧
     (¬(flagsStatic.passes = true ∧ kdTransparent.film_pass_flag &&& PASS_BACKGROUND ≠ 0) →
       (hb_phase flagsStatic extDemo kdTransparent slotHBCamera).1.L = slotHBCamera.L ∧
       (hb_phase flagsStatic extDemo kdTransparent slotHBCamera).1.ray_state =
         RAY_UPDATE_BUFFER)) :=
  ⟨⟨by decide, by decide, by decide⟩,
   transparent_camera_folds_transparency flagsStatic extDemo kdTransparent
     slotHBCamera (by decide) (by decide) (by decide)⟩

/-- Claim C4: a slot processed in `RAY_UPDATE_BUFFER` has its accumulated
radiance clamped and summed and written as exactly one four-channel value to
the per-sample output slot, with alpha channel `1 - accumulated transparency`;
its RNG stream is finalized; and it unconditionally transitions to
`RAY_TO_REGENERATE`. -/
theorem update_buffer_writes_and_regenerates
    (ext : Externals) (buf_ofs rng_ofs sample : Nat) (slot : SlotState)
    (h : slot.ray_state = RAY_UPDATE_BUFFER) :
    (ub_phase ext buf_ofs rng_ofs sample slot).1 =
      { slot with ray_state := RAY_TO_REGENERATE } ∧
    ((ub_phase ext buf_ofs rng_ofs sample slot).2).countP Event.is_output_write = 1 ∧
    Event.write_pass_float4 buf_ofs sample
        (make_float4 (ext.path_radiance_clamp_and_sum slot.L).x
          (ext.path_radiance_clamp_and_sum slot.L).y
          (ext.path_radiance_clamp_and_sum slot.L).z
          (1 - slot.L_transparent)) ∈ (ub_phase ext buf_ofs rng_ofs sample slot).2 ∧
    Event.rng_finalize rng_ofs slot.rng ∈ (ub_phase ext buf_ofs rng_ofs sample slot).2 := by
  rw [ub_phase_run ext buf_ofs rng_ofs sample slot h]
  refine ⟨rfl, ?_, ?_, ?_⟩
  · simp [List.countP_cons, Event.is_output_write]
  · simp
  · simp

/-- Witness for C4 at a concrete slot with accumulated transparency 0 (alpha
written is 1, the transparent-background configuration's expected value when
transparency is disabled). -/
theorem update_buffer_writes_and_regenerates_holds :
    ({ slotHB with ray_state := RAY_UPDATE_BUFFER } : SlotState).ray_state =
        RAY_UPDATE_BUFFER ∧
    ((ub_phase extDemo 4 2 1 { slotHB with ray_state := RAY_UPDATE_BUFFER }).1 =
      { ({ slotHB with ray_state := RAY_UPDATE_BUFFER } : SlotState) with
        ray_state := RAY_TO_REGENERATE } ∧
    ((ub_phase extDemo 4 2 1 { slotHB with ray_state := RAY_UPDATE_BUFFER }).2).countP
        Event.is_output_write = 1 ∧
    Event.write_pass_float4 4 1
        (make_float4
          (extDemo.path_radiance_clamp_and_sum ({ slotHB with ray_state := RAY_UPDATE_BUFFER } : SlotState).L).x
          (extDemo.path_radiance_clamp_and_sum ({ slotHB with ray_state := RAY_UPDATE_BUFFER } : SlotState).L).y
          (extDemo.path_radiance_clamp_and_sum ({ slotHB with ray_state := RAY_UPDATE_BUFFER } : SlotState).L).z
          (1 - ({ slotHB with ray_state := RAY_UPDATE_BUFFER } : SlotState).L_transparent)) ∈
      (ub_phase extDemo 4 2 1 { slotHB with ray_state := RAY_UPDATE_BUFFER }).2 ∧
    Event.rng_finalize 2 ({ slotHB with ray_state := RAY_UPDATE_BUFFER } : SlotState).rng ∈
      (ub_phase extDemo 4 2 1 { slotHB with ray_state := RAY_UPDATE_BUFFER }).2) :=
  ⟨by decide,
   update_buffer_writes_and_regenerates extDemo 4 2 1
     { slotHB with ray_state := RAY_UPDATE_BUFFER } (by decide)⟩

/-- Claim C5: a slot processed in `RAY_TO_REGENERATE` (i) transitions to
`RAY_INACTIVE` when the Work Distributor has no further work unit, leaving
the active queue untouched; (ii) on claiming a work unit whose camera ray has
non-zero extent, resets throughput to unit weight, zero transparency and zero
bounce count, transitions to `RAY_REGENERATED`, and has its index appended to
the active queue exactly once; (iii) on claiming a work unit whose camera ray
has zero extent, stays in `RAY_TO_REGENERATE` and is not enqueued. -/
theorem to_regenerate_outcomes (flags : BuildFlags) (ext : Externals)
    (sp : SplitParams) (kd : KernelData) (ray_index : Nat) (pool : WorkPool)
    (slot : SlotState) (qd : List Nat) (qi : Nat)
    (h : slot.ray_state = RAY_TO_REGENERATE) :
    (work_distributor_claim flags sp pool
        (entry_addressing flags sp ray_index slot).sample = none →
      (kernel_background_buffer_update_thread flags ext sp kd ray_index pool slot qd qi).1.ray_state =
        RAY_INACTIVE ∧
      (kernel_background_buffer_update_thread flags ext sp kd ray_index pool slot qd qi).2.2.2 =
        (qd, qi)) ∧
    (∀ wk pool', work_distributor_claim flags sp pool
        (entry_addressing flags sp ray_index slot).sample = some (wk, pool') →
      ((regen_setup flags ext sp kd ray_index slot wk).2.t ≠ 0 →
        (kernel_background_buffer_update_thread flags ext sp kd ray_index pool slot qd qi).1.ray_state =
          RAY_REGENERATED ∧
        (kernel_background_buffer_update_thread flags ext sp kd ray_index pool slot qd qi).1.throughput =
          make_float3 1 1 1 ∧
        (kernel_background_buffer_update_thread flags ext sp kd ray_index pool slot qd qi).1.L_transparent = 0 ∧
        (kernel_background_buffer_update_thread flags ext sp kd ray_index pool slot qd qi).1.path_state.bounce = 0 ∧
        (kernel_background_buffer_update_thread flags ext sp kd ray_index pool slot qd qi).2.2.2 =
          (qd ++ [ray_index], qi + 1) ∧
        ((kernel_background_buffer_update_thread flags ext sp kd ray_index pool slot qd qi).2.2.1).count
          (Event.enqueue_active ray_index) = 1) ∧
      ((regen_setup flags ext sp kd ray_index slot wk).2.t = 0 →
        (kernel_background_buffer_update_thread flags ext sp kd ray_index pool slot qd qi).1.ray_state =
          RAY_TO_REGENERATE ∧
        (kernel_background_buffer_update_thread flags ext sp kd ray_index pool slot qd qi).2.2.2 =
          (qd, qi) ∧
        ((kernel_background_buffer_update_thread flags ext sp kd ray_index pool slot qd qi).2.2.1).count
          (Event.enqueue_active ray_index) = 0)) := by
  constructor
  · intro hw
    have hbody := (step_from_tr flags ext sp kd ray_index pool slot h).trans
      (tr_phase_no_work flags ext sp kd ray_index pool
        (entry_addressing flags sp ray_index slot).sample
        (entry_buf_ofs flags sp kd ray_index slot)
        (entry_rng_ofs flags sp ray_index slot) slot h hw)
    simp [kernel_background_buffer_update_thread, hbody, enqueue_ray_index_local]
  · intro wk pool' hw
    constructor
    · intro ht
      have ht' : (ext.kernel_path_trace_setup
          (claimed_addressing flags sp kd ray_index wk
            (entry_buf_ofs flags sp kd ray_index slot)
            (entry_rng_ofs flags sp ray_index slot)).rng_ofs
          (claimed_addressing flags sp kd ray_index wk
            (entry_buf_ofs flags sp kd ray_index slot)
            (entry_rng_ofs flags sp ray_index slot)).sample
          (claimed_addressing flags sp kd ray_index wk
            (entry_buf_ofs flags sp kd ray_index slot)
            (entry_rng_ofs flags sp ray_index slot)).pixel_x
          (claimed_addressing flags sp kd ray_index wk
            (entry_buf_ofs flags sp kd ray_index slot)
            (entry_rng_ofs flags sp ray_index slot)).pixel_y).2.t ≠ 0 := by
        simpa [regen_setup, regen_addressing] using ht
      have hbody := (step_from_tr flags ext sp kd ray_index pool slot h).trans
        (tr_phase_regenerated flags ext sp kd ray_index pool
          (entry_addressing flags sp ray_index slot).sample
          (entry_buf_ofs flags sp kd ray_index slot)
          (entry_rng_ofs flags sp ray_index slot) slot wk pool' h hw ht')
      simp [kernel_background_buffer_update_thread, hbody, enqueue_ray_index_local,
        path_state_init, List.count_cons]
    · intro ht
      have ht' : (ext.kernel_path_trace_setup
          (claimed_addressing flags sp kd ray_index wk
            (entry_buf_ofs flags sp kd ray_index slot)
            (entry_rng_ofs flags sp ray_index slot)).rng_ofs
          (claimed_addressing flags sp kd ray_index wk
            (entry_buf_ofs flags sp kd ray_index slot)
            (entry_rng_ofs flags sp ray_index slot)).sample
          (claimed_addressing flags sp kd ray_index wk
            (entry_buf_ofs flags sp kd ray_index slot)
            (entry_rng_ofs flags sp ray_index slot)).pixel_x
          (claimed_addressing flags sp kd ray_index wk
            (entry_buf_ofs flags sp kd ray_index slot)
            (entry_rng_ofs flags sp ray_index slot)).pixel_y).2.t = 0 := by
        simpa [regen_setup, regen_addressing] using ht
      have hbody := (step_from_tr flags ext sp kd ray_index pool slot h).trans
        (tr_phase_degenerate flags ext sp kd ray_index pool
          (entry_addressing flags sp ray_index slot).sample
          (entry_buf_ofs flags sp kd ray_index slot)
          (entry_rng_ofs flags sp ray_index slot) slot wk pool' h hw ht')
      simp [kernel_background_buffer_update_thread, hbody, enqueue_ray_index_local,
        List.count_cons]

/-- Witness for C5 at a concrete regenerating slot under the static
partition: with work available and a valid camera ray, the slot is
regenerated and its index 3 is appended to the (empty) active queue once. -/
theorem to_regenerate_outcomes_holds :
    slotTR.ray_state = RAY_TO_REGENERATE ∧
    work_distributor_claim flagsStatic spDemo ⟨0⟩
      (entry_addressing flagsStatic spDemo 3 slotTR).sample = some (2, ⟨0⟩) ∧
    (regen_setup flagsStatic extDemo spDemo kdDemo 3 slotTR 2).2.t ≠ 0 ∧
    (kernel_background_buffer_update_thread flagsStatic extDemo spDemo kdDemo 3 ⟨0⟩ slotTR [] 0).1.ray_state =
      RAY_REGENERATED ∧
    (kernel_background_buffer_update_thread flagsStatic extDemo spDemo kdDemo 3 ⟨0⟩ slotTR [] 0).2.2.2 =
      ([3], 1) := by
  refine ⟨by decide, by decide, by decide, ?_, ?_⟩
  · obtain ⟨-, h2⟩ := to_regenerate_outcomes flagsStatic extDemo spDemo kdDemo
      3 ⟨0⟩ slotTR [] 0 (by decide)
    obtain ⟨hr, -⟩ := h2 2 ⟨0⟩ (by decide)
    exact (hr (by decide)).1
  · obtain ⟨-, h2⟩ := to_regenerate_outcomes flagsStatic extDemo spDemo kdDemo
      3 ⟨0⟩ slotTR [] 0 (by decide)
    obtain ⟨hr, -⟩ := h2 2 ⟨0⟩ (by decide)
    exact (hr (by decide)).2.2.2.2.1

/-- Counterexample to claim C6 as stated: the degenerate-ray branch (source
lines 255-263) assigns `RAY_TO_REGENERATE` and falls out of the kernel — it
does NOT repeat the check-and-transition sequence within the same invocation.
Concretely, with a camera-ray generator that returns zero-extent rays and
plenty of work remaining, one full invocation performs exactly one work-unit
claim and ends with the slot still in `RAY_TO_REGENERATE`, a state owned by
this stage; the retry is left to a later invocation (wave). -/
theorem degenerate_ray_not_retried_within_invocation :
    (kernel_background_buffer_update_slot flagsStatic extDegenerate spLong kdDemo 0 ⟨0⟩ slotTR).1.ray_state =
      RAY_TO_REGENERATE ∧
    work_distributor_claim flagsStatic spLong ⟨0⟩
      (kernel_background_buffer_update_slot flagsStatic extDegenerate spLong kdDemo 0 ⟨0⟩ slotTR).1.work_array ≠
      none ∧
    ((kernel_background_buffer_update_slot flagsStatic extDegenerate spLong kdDemo 0 ⟨0⟩ slotTR).2.2.1).countP
      Event.is_claim = 1 := by
  decide

/-- Claim C6 (amended): when a newly claimed camera ray degenerates to zero
length, the stage flushes the zero contribution (the zero write is recorded)
and returns the slot to `RAY_TO_REGENERATE` with the claimed unit stored in
its work counter; the invocation performs exactly one work-unit claim, and
the retry is deferred to a subsequent invocation of the stage (the slot is
left in a state this stage owns, to be reprocessed next wave). -/
theorem degenerate_ray_flush_and_defer (flags : BuildFlags) (ext : Externals)
    (sp : SplitParams) (kd : KernelData) (ray_index : Nat) (pool : WorkPool)
    (slot : SlotState) (wk : Nat) (pool' : WorkPool)
    (h : slot.ray_state = RAY_TO_REGENERATE)
    (hw : work_distributor_claim flags sp pool
        (entry_addressing flags sp ray_index slot).sample = some (wk, pool'))
    (ht : (regen_setup flags ext sp kd ray_index slot wk).2.t = 0) :
    (kernel_background_buffer_update_slot flags ext sp kd ray_index pool slot).1.ray_state =
      RAY_TO_REGENERATE ∧
    (kernel_background_buffer_update_slot flags ext sp kd ray_index pool slot).1.work_array = wk ∧
    ((kernel_background_buffer_update_slot flags ext sp kd ray_index pool slot).2.2.1).countP
      Event.is_claim = 1 ∧
    Event.write_pass_float4 (regen_addressing flags sp kd ray_index slot wk).buf_ofs
      (regen_addressing flags sp kd ray_index slot wk).sample (make_float4 0 0 0 0) ∈
      (kernel_background_buffer_update_slot flags ext sp kd ray_index pool slot).2.2.1 := by
  have ht' : (ext.kernel_path_trace_setup
      (claimed_addressing flags sp kd ray_index wk
        (entry_buf_ofs flags sp kd ray_index slot)
        (entry_rng_ofs flags sp ray_index slot)).rng_ofs
      (claimed_addressing flags sp kd ray_index wk
        (entry_buf_ofs flags sp kd ray_index slot)
        (entry_rng_ofs flags sp ray_index slot)).sample
      (claimed_addressing flags sp kd ray_index wk
        (entry_buf_ofs flags sp kd ray_index slot)
        (entry_rng_ofs flags sp ray_index slot)).pixel_x
      (claimed_addressing flags sp kd ray_index wk
        (entry_buf_ofs flags sp kd ray_index slot)
        (entry_rng_ofs flags sp ray_index slot)).pixel_y).2.t = 0 := by
    simpa [regen_setup, regen_addressing] using ht
  have hbody := (step_from_tr flags ext sp kd ray_index pool slot h).trans
    (tr_phase_degenerate flags ext sp kd ray_index pool
      (entry_addressing flags sp ray_index slot).sample
      (entry_buf_ofs flags sp kd ray_index slot)
      (entry_rng_ofs flags sp ray_index slot) slot wk pool' h hw ht')
  rw [hbody]
  refine ⟨rfl, rfl, ?_, ?_⟩
  · simp [List.countP_cons, Event.is_claim]
  · simp [regen_addressing]

/-- Witness for the amended C6 at a concrete degenerate regeneration. -/
theorem degenerate_ray_flush_and_defer_holds :
    (slotTR.ray_state = RAY_TO_REGENERATE ∧
     work_distributor_claim flagsStatic spLong ⟨0⟩
       (entry_addressing flagsStatic spLong 0 slotTR).sample = some (2, ⟨0⟩) ∧
     (regen_setup flagsStatic extDegenerate spLong kdDemo 0 slotTR 2).2.t = 0) ∧
    ((kernel_background_buffer_update_slot flagsStatic extDegenerate spLong kdDemo 0 ⟨0⟩ slotTR).1.ray_state =
       RAY_TO_REGENERATE ∧
     (kernel_background_buffer_update_slot flagsStatic extDegenerate spLong kdDemo 0 ⟨0⟩ slotTR).1.work_array = 2 ∧
     ((kernel_background_buffer_update_slot flagsStatic extDegenerate spLong kdDemo 0 ⟨0⟩ slotTR).2.2.1).countP
       Event.is_claim = 1 ∧
     Event.write_pass_float4 (regen_addressing flagsStatic spLong kdDemo 0 slotTR 2).buf_ofs
       (regen_addressing flagsStatic spLong kdDemo 0 slotTR 2).sample (make_float4 0 0 0 0) ∈
       (kernel_background_buffer_update_slot flagsStatic extDegenerate spLong kdDemo 0 ⟨0⟩ slotTR).2.2.1) :=
  ⟨⟨by decide, by decide, by decide⟩,
   degenerate_ray_flush_and_defer flagsStatic extDegenerate spLong kdDemo 0 ⟨0⟩
     slotTR 2 ⟨0⟩ (by decide) (by decide) (by decide)⟩

/-- Claim C8: under the static-partition policy, a slot in
`RAY_TO_REGENERATE` goes `RAY_INACTIVE` exactly when the advanced counter
`work_array + parallel_samples` would pass the configured end sample;
otherwise claiming next work advances the per-slot counter by the
parallel-sample stride and claims the slot's fixed pixel, which is a function
of the slot index alone (`static_pixel`). -/
theorem static_partition_advance (flags : BuildFlags) (ext : Externals)
    (sp : SplitParams) (kd : KernelData) (ray_index : Nat) (pool : WorkPool)
    (slot : SlotState)
    (hws : flags.work_stealing = false)
    (h : slot.ray_state = RAY_TO_REGENERATE) :
    ((kernel_background_buffer_update_slot flags ext sp kd ray_index pool slot).1.ray_state =
        RAY_INACTIVE ↔
      sp.end_sample ≤ slot.work_array + sp.parallel_samples) ∧
    (¬sp.end_sample ≤ slot.work_array + sp.parallel_samples →
      (kernel_background_buffer_update_slot flags ext sp kd ray_index pool slot).1.work_array =
        slot.work_array + sp.parallel_samples ∧
      Event.claim_work (slot.work_array + sp.parallel_samples)
        (static_pixel sp ray_index).1 (static_pixel sp ray_index).2 ∈
        (kernel_background_buffer_update_slot flags ext sp kd ray_index pool slot).2.2.1) := by
  have hsample := entry_addressing_static flags sp ray_index slot hws
  by_cases hend : sp.end_sample ≤ slot.work_array + sp.parallel_samples
  · have hw : work_distributor_claim flags sp pool
        (entry_addressing flags sp ray_index slot).sample = none := by
      rw [work_distributor_claim_static flags sp pool _ hws, hsample]
      simp [static_next_work, hend]
    have hbody := (step_from_tr flags ext sp kd ray_index pool slot h).trans
      (tr_phase_no_work flags ext sp kd ray_index pool
        (entry_addressing flags sp ray_index slot).sample
        (entry_buf_ofs flags sp kd ray_index slot)
        (entry_rng_ofs flags sp ray_index slot) slot h hw)
    rw [hbody]
    exact ⟨by simp [hend], fun hcontra => absurd hend hcontra⟩
  · have hw : work_distributor_claim flags sp pool
        (entry_addressing flags sp ray_index slot).sample =
        some (slot.work_array + sp.parallel_samples, pool) := by
      rw [work_distributor_claim_static flags sp pool _ hws, hsample]
      simp [static_next_work, hend]
    have hca := claimed_addressing_static flags sp kd ray_index
      (slot.work_array + sp.parallel_samples)
      (entry_buf_ofs flags sp kd ray_index slot)
      (entry_rng_ofs flags sp ray_index slot) hws
    by_cases ht : (ext.kernel_path_trace_setup
        (claimed_addressing flags sp kd ray_index (slot.work_array + sp.parallel_samples)
          (entry_buf_ofs flags sp kd ray_index slot)
          (entry_rng_ofs flags sp ray_index slot)).rng_ofs
        (claimed_addressing flags sp kd ray_index (slot.work_array + sp.parallel_samples)
          (entry_buf_ofs flags sp kd ray_index slot)
          (entry_rng_ofs flags sp ray_index slot)).sample
        (claimed_addressing flags sp kd ray_index (slot.work_array + sp.parallel_samples)
          (entry_buf_ofs flags sp kd ray_index slot)
          (entry_rng_ofs flags sp ray_index slot)).pixel_x
        (claimed_addressing flags sp kd ray_index (slot.work_array + sp.parallel_samples)
          (entry_buf_ofs flags sp kd ray_index slot)
          (entry_rng_ofs flags sp ray_index slot)).pixel_y).2.t = 0
    · have hbody := (step_from_tr flags ext sp kd ray_index pool slot h).trans
        (tr_phase_degenerate flags ext sp kd ray_index pool
          (entry_addressing flags sp ray_index slot).sample
          (entry_buf_ofs flags sp kd ray_index slot)
          (entry_rng_ofs flags sp ray_index slot) slot
          (slot.work_array + sp.parallel_samples) pool h hw ht)
      rw [hbody]
      refine ⟨by simp [hend], fun _ => ⟨rfl, ?_⟩⟩
      rw [hca]
      simp
    · have hbody := (step_from_tr flags ext sp kd ray_index pool slot h).trans
        (tr_phase_regenerated flags ext sp kd ray_index pool
          (entry_addressing flags sp ray_index slot).sample
          (entry_buf_ofs flags sp kd ray_index slot)
          (entry_rng_ofs flags sp ray_index slot) slot
          (slot.work_array + sp.parallel_samples) pool h hw ht)
      rw [hbody]
      refine ⟨by simp [hend], fun _ => ⟨rfl, ?_⟩⟩
      rw [hca]
      simp

/-- Witness for C8 at a concrete static-partition slot: sample 0, stride 2,
end sample 4, so the slot advances to sample 2 and is not retired. -/
theorem static_partition_advance_holds :
    (flagsStatic.work_stealing = false ∧
     slotTR.ray_state = RAY_TO_REGENERATE) ∧
    (((kernel_background_buffer_update_slot flagsStatic extDemo spDemo kdDemo 3 ⟨0⟩ slotTR).1.ray_state =
        RAY_INACTIVE ↔
      spDemo.end_sample ≤ slotTR.work_array + spDemo.parallel_samples) ∧
    (¬spDemo.end_sample ≤ slotTR.work_array + spDemo.parallel_samples →
      (kernel_background_buffer_update_slot flagsStatic extDemo spDemo kdDemo 3 ⟨0⟩ slotTR).1.work_array =
        slotTR.work_array + spDemo.parallel_samples ∧
      Event.claim_work (slotTR.work_array + spDemo.parallel_samples)
        (static_pixel spDemo 3).1 (static_pixel spDemo 3).2 ∈
        (kernel_background_buffer_update_slot flagsStatic extDemo spDemo kdDemo 3 ⟨0⟩ slotTR).2.2.1)) :=
  ⟨⟨by decide, by decide⟩,
   static_partition_advance flagsStatic extDemo spDemo kdDemo 3 ⟨0⟩ slotTR
     (by decide) (by decide)⟩

/-- Claim C9: a degenerate (zero-length) regenerated ray produces exactly one
output write in the invocation — the zero-radiance value at the claimed
(pixel, sample)'s buffer slot — the RNG stream prepared for that sample is
finalized, and the anomaly is resolved locally: the slot simply returns to
`RAY_TO_REGENERATE` (the stage is a total function; nothing is surfaced). -/
theorem degenerate_ray_single_zero_write (flags : BuildFlags) (ext : Externals)
    (sp : SplitParams) (kd : KernelData) (ray_index : Nat) (pool : WorkPool)
    (slot : SlotState) (wk : Nat) (pool' : WorkPool)
    (h : slot.ray_state = RAY_TO_REGENERATE)
    (hw : work_distributor_claim flags sp pool
        (entry_addressing flags sp ray_index slot).sample = some (wk, pool'))
    (ht : (regen_setup flags ext sp kd ray_index slot wk).2.t = 0) :
    ((kernel_background_buffer_update_slot flags ext sp kd ray_index pool slot).2.2.1).countP
      Event.is_output_write = 1 ∧
    Event.write_pass_float4 (regen_addressing flags sp kd ray_index slot wk).buf_ofs
      (regen_addressing flags sp kd ray_index slot wk).sample (make_float4 0 0 0 0) ∈
      (kernel_background_buffer_update_slot flags ext sp kd ray_index pool slot).2.2.1 ∧
    Event.rng_finalize (regen_addressing flags sp kd ray_index slot wk).rng_ofs
      (regen_setup flags ext sp kd ray_index slot wk).1 ∈
      (kernel_background_buffer_update_slot flags ext sp kd ray_index pool slot).2.2.1 ∧
    (kernel_background_buffer_update_slot flags ext sp kd ray_index pool slot).1.ray_state =
      RAY_TO_REGENERATE := by
  have ht' : (ext.kernel_path_trace_setup
      (claimed_addressing flags sp kd ray_index wk
        (entry_buf_ofs flags sp kd ray_index slot)
        (entry_rng_ofs flags sp ray_index slot)).rng_ofs
      (claimed_addressing flags sp kd ray_index wk
        (entry_buf_ofs flags sp kd ray_index slot)
        (entry_rng_ofs flags sp ray_index slot)).sample
      (claimed_addressing flags sp kd ray_index wk
        (entry_buf_ofs flags sp kd ray_index slot)
        (entry_rng_ofs flags sp ray_index slot)).pixel_x
      (claimed_addressing flags sp kd ray_index wk
        (entry_buf_ofs flags sp kd ray_index slot)
        (entry_rng_ofs flags sp ray_index slot)).pixel_y).2.t = 0 := by
    simpa [regen_setup, regen_addressing] using ht
  have hbody := (step_from_tr flags ext sp kd ray_index pool slot h).trans
    (tr_phase_degenerate flags ext sp kd ray_index pool
      (entry_addressing flags sp ray_index slot).sample
      (entry_buf_ofs flags sp kd ray_index slot)
      (entry_rng_ofs flags sp ray_index slot) slot wk pool' h hw ht')
  rw [hbody]
  refine ⟨?_, ?_, ?_, rfl⟩
  · simp [List.countP_cons, Event.is_output_write]
  · simp [regen_addressing]
  · simp [regen_addressing, regen_setup]

/-- Witness for C9 at a concrete degenerate regeneration. -/
theorem degenerate_ray_single_zero_write_holds :
    (slotTR.ray_state = RAY_TO_REGENERATE ∧
     work_distributor_claim flagsStatic spLong ⟨0⟩
       (entry_addressing flagsStatic spLong 1 slotTR).sample = some (2, ⟨0⟩) ∧
     (regen_setup flagsStatic extDegenerate spLong kdDemo 1 slotTR 2).2.t = 0) ∧
    (((kernel_background_buffer_update_slot flagsStatic extDegenerate spLong kdDemo 1 ⟨0⟩ slotTR).2.2.1).countP
       Event.is_output_write = 1 ∧
     Event.write_pass_float4 (regen_addressing flagsStatic spLong kdDemo 1 slotTR 2).buf_ofs
       (regen_addressing flagsStatic spLong kdDemo 1 slotTR 2).sample (make_float4 0 0 0 0) ∈
       (kernel_background_buffer_update_slot flagsStatic extDegenerate spLong kdDemo 1 ⟨0⟩ slotTR).2.2.1 ∧
     Event.rng_finalize (regen_addressing flagsStatic spLong kdDemo 1 slotTR 2).rng_ofs
       (regen_setup flagsStatic extDegenerate spLong kdDemo 1 slotTR 2).1 ∈
       (kernel_background_buffer_update_slot flagsStatic extDegenerate spLong kdDemo 1 ⟨0⟩ slotTR).2.2.1 ∧
     (kernel_background_buffer_update_slot flagsStatic extDegenerate spLong kdDemo 1 ⟨0⟩ slotTR).1.ray_state =
       RAY_TO_REGENERATE) :=
  ⟨⟨by decide, by decide, by decide⟩,
   degenerate_ray_single_zero_write flagsStatic extDegenerate spLong kdDemo 1 ⟨0⟩
     slotTR 2 ⟨0⟩ (by decide) (by decide) (by decide)⟩

/-- Claim C10: every slot the stage dequeues (in `RAY_HIT_BACKGROUND`,
`RAY_UPDATE_BUFFER` or `RAY_TO_REGENERATE`, the documented queue contents)
finishes the invocation in `RAY_TO_REGENERATE`, `RAY_REGENERATED` or
`RAY_INACTIVE` — never in `RAY_HIT_BACKGROUND` or `RAY_UPDATE_BUFFER` — and
the `RAY_TO_REGENERATE` outcome arises only via the degenerate-ray branch:
it entails a zero-contribution write and exactly one work-unit claim. -/
theorem processed_slot_final_states (flags : BuildFlags) (ext : Externals)
    (sp : SplitParams) (kd : KernelData) (ray_index : Nat) (pool : WorkPool)
    (slot : SlotState)
    (h : slot.ray_state = RAY_HIT_BACKGROUND ∨ slot.ray_state = RAY_UPDATE_BUFFER ∨
         slot.ray_state = RAY_TO_REGENERATE) :
    ((kernel_background_buffer_update_slot flags ext sp kd ray_index pool slot).1.ray_state =
        RAY_TO_REGENERATE ∨
     (kernel_background_buffer_update_slot flags ext sp kd ray_index pool slot).1.ray_state =
        RAY_REGENERATED ∨
     (kernel_background_buffer_update_slot flags ext sp kd ray_index pool slot).1.ray_state =
        RAY_INACTIVE) ∧
    ((kernel_background_buffer_update_slot flags ext sp kd ray_index pool slot).1.ray_state =
        RAY_TO_REGENERATE →
      (∃ b s, Event.write_pass_float4 b s (make_float4 0 0 0 0) ∈
        (kernel_background_buffer_update_slot flags ext sp kd ray_index pool slot).2.2.1) ∧
      ((kernel_background_buffer_update_slot flags ext sp kd ray_index pool slot).2.2.1).countP
        Event.is_claim = 1) := by
  have hub := phases_funnel_to_tr flags ext kd
    (entry_buf_ofs flags sp kd ray_index slot)
    (entry_rng_ofs flags sp ray_index slot)
    (entry_addressing flags sp ray_index slot).sample slot h
  obtain ⟨ho, hd⟩ := tr_phase_outcomes flags ext sp kd ray_index pool
    (entry_addressing flags sp ray_index slot).sample
    (entry_buf_ofs flags sp kd ray_index slot)
    (entry_rng_ofs flags sp ray_index slot)
    (ub_phase ext (entry_buf_ofs flags sp kd ray_index slot)
      (entry_rng_ofs flags sp ray_index slot)
      (entry_addressing flags sp ray_index slot).sample
      (hb_phase flags ext kd slot).1).1 hub
  rw [kernel_background_buffer_update_slot_eq]
  dsimp only
  constructor
  · rcases ho with h1 | h1 | h1
    · exact Or.inr (Or.inr h1)
    · exact Or.inr (Or.inl h1)
    · exact Or.inl h1
  · intro hfin
    obtain ⟨⟨b, s, hmem⟩, hcount⟩ := hd hfin
    constructor
    · refine ⟨b, s, ?_⟩
      simp only [List.mem_append]
      right
      exact hmem
    · simp only [List.countP_append]
      rw [hb_phase_no_claim, ub_phase_no_claim, hcount]

/-- Witness for C10 at a concrete background hit that cascades through all
three phases in one invocation. -/
theorem processed_slot_final_states_holds :
    (slotHB.ray_state = RAY_HIT_BACKGROUND ∨ slotHB.ray_state = RAY_UPDATE_BUFFER ∨
     slotHB.ray_state = RAY_TO_REGENERATE) ∧
    (((kernel_background_buffer_update_slot flagsStatic extDemo spDemo kdDemo 3 ⟨0⟩ slotHB).1.ray_state =
        RAY_TO_REGENERATE ∨
      (kernel_background_buffer_update_slot flagsStatic extDemo spDemo kdDemo 3 ⟨0⟩ slotHB).1.ray_state =
        RAY_REGENERATED ∨
      (kernel_background_buffer_update_slot flagsStatic extDemo spDemo kdDemo 3 ⟨0⟩ slotHB).1.ray_state =
        RAY_INACTIVE) ∧
     ((kernel_background_buffer_update_slot flagsStatic extDemo spDemo kdDemo 3 ⟨0⟩ slotHB).1.ray_state =
        RAY_TO_REGENERATE →
       (∃ b s, Event.write_pass_float4 b s (make_float4 0 0 0 0) ∈
         (kernel_background_buffer_update_slot flagsStatic extDemo spDemo kdDemo 3 ⟨0⟩ slotHB).2.2.1) ∧
       ((kernel_background_buffer_update_slot flagsStatic extDemo spDemo kdDemo 3 ⟨0⟩ slotHB).2.2.1).countP
         Event.is_claim = 1)) :=
  ⟨Or.inl (by decide),
   processed_slot_final_states flagsStatic extDemo spDemo kdDemo 3 ⟨0⟩ slotHB
     (Or.inl (by decide))⟩

/-- Counterexample to claim C7 as stated: `kernel_lamp_emission` is not free
of queue mutation — its first thread resets the occupancy counter of
`QUEUE_ACTIVE_AND_REGENERATED_RAYS` to zero (source lines 45-47), so a
counter that was 3 at entry is 0 after the stage; and per slot it mutates
more than the radiance accumulator — the lamp-MIS branch advances
`path_state.ray_t` by the stored intersection distance (source line 89). -/
theorem lamp_emission_mutates_beyond_accumulator :
    (kernel_lamp_emission flagsStatic extDemo kdDemo (fun _ => 1)
        ⟨[1, 2], 3, [], 0⟩ []).1.active_index ≠
      (⟨[1, 2], 3, [], 0⟩ : QueueSet).active_index ∧
    (kernel_lamp_emission_slot flagsStatic extDemo kdDemo 1 slotHB).path_state.ray_t ≠
      slotHB.path_state.ray_t := by
  constructor
  · decide
  · norm_num [kernel_lamp_emission_slot, flagsStatic, extDemo, kdDemo, slotHB,
      psDemo, rayDemo, PATH_RAY_CAMERA, Float3.sub, Float3.smul, make_float3]

/-- Claim C7 (amended): the lamp/indirect-emission stage performs no state
transition and no queue-content mutation — it never changes any slot's state
tag, never enqueues, and leaves both queues' contents and the input queue's
counter of the buffer-update stage untouched — but, as the designated drainer
of the active queue, it resets that queue's occupancy counter to zero; and
per slot it mutates only the radiance accumulator together with the
path-state ray-segment bookkeeping field `ray_t` (throughput, ray geometry,
rng cursor, work unit, transparency, path flags and bounce count are all
preserved). -/
theorem lamp_emission_scheduling_effects (flags : BuildFlags) (ext : Externals)
    (kd : KernelData) (isect_t : Nat → Rat) (qs : QueueSet)
    (slots : List SlotState) :
    ((kernel_lamp_emission flags ext kd isect_t qs slots).1.active_data = qs.active_data ∧
     (kernel_lamp_emission flags ext kd isect_t qs slots).1.hitbg_data = qs.hitbg_data ∧
     (kernel_lamp_emission flags ext kd isect_t qs slots).1.hitbg_index = qs.hitbg_index ∧
     (kernel_lamp_emission flags ext kd isect_t qs slots).1.active_index = 0) ∧
    (∀ t slot,
      (kernel_lamp_emission_slot flags ext kd t slot).ray_state = slot.ray_state ∧
      (kernel_lamp_emission_slot flags ext kd t slot).throughput = slot.throughput ∧
      (kernel_lamp_emission_slot flags ext kd t slot).L_transparent = slot.L_transparent ∧
      (kernel_lamp_emission_slot flags ext kd t slot).ray = slot.ray ∧
      (kernel_lamp_emission_slot flags ext kd t slot).rng = slot.rng ∧
      (kernel_lamp_emission_slot flags ext kd t slot).work_array = slot.work_array ∧
      (kernel_lamp_emission_slot flags ext kd t slot).path_state.flag = slot.path_state.flag ∧
      (kernel_lamp_emission_slot flags ext kd t slot).path_state.bounce = slot.path_state.bounce) := by
  constructor
  · simp [kernel_lamp_emission]
  · intro t slot
    unfold kernel_lamp_emission_slot
    split_ifs with h1 h2
    · cases hx : ext.indirect_lamp_emission
        { slot.path_state with ray_t := slot.path_state.ray_t + t }
        { P := Float3.sub slot.ray.P (Float3.smul slot.path_state.ray_t slot.ray.D),
          D := slot.ray.D, t := slot.path_state.ray_t + t,
          time := slot.ray.time, dD := slot.ray.dD, dP := slot.ray.dP } <;>
        simp [hx]
    · simp
    · simp

/-! Development for the work-coverage claim: the static-partition claim
sequences and the work-stealing pool hand out every configured
(pixel, sample) pair exactly once. -/

theorem static_claims_from_gt (sp : SplitParams) (hP : 0 < sp.parallel_samples) :
    ∀ fuel s t, t ∈ static_claims_from sp fuel s → s < t := by
  intro fuel
  induction fuel with
  | zero => intro s t ht; simp [static_claims_from] at ht
  | succ n ih =>
      intro s t ht
      simp only [static_claims_from] at ht
      by_cases hend : sp.end_sample ≤ s + sp.parallel_samples
      · rw [static_next_work, if_pos hend] at ht
        simp at ht
      · rw [static_next_work, if_neg hend] at ht
        simp only [List.mem_cons] at ht
        rcases ht with rfl | ht
        · omega
        · have := ih (s + sp.parallel_samples) t ht
          omega

theorem static_claims_from_mem (sp : SplitParams) (hP : 0 < sp.parallel_samples) :
    ∀ fuel s, sp.end_sample ≤ s + fuel →
      ∀ t, (t ∈ static_claims_from sp fuel s ↔
        ∃ k, t = s + (k + 1) * sp.parallel_samples ∧ t < sp.end_sample) := by
  intro fuel
  induction fuel with
  | zero =>
      intro s hfuel t
      simp only [static_claims_from, List.not_mem_nil, false_iff, not_exists]
      rintro k ⟨rfl, hlt⟩
      have hkP : sp.parallel_samples ≤ (k + 1) * sp.parallel_samples :=
        Nat.le_mul_of_pos_left _ (Nat.succ_pos k)
      omega
  | succ n ih =>
      intro s hfuel t
      simp only [static_claims_from]
      by_cases hend : sp.end_sample ≤ s + sp.parallel_samples
      · rw [static_next_work, if_pos hend]
        simp only [List.not_mem_nil, false_iff, not_exists]
        rintro k ⟨rfl, hlt⟩
        have hkP : sp.parallel_samples ≤ (k + 1) * sp.parallel_samples :=
          Nat.le_mul_of_pos_left _ (Nat.succ_pos k)
        omega
      · rw [static_next_work, if_neg hend]
        simp only [List.mem_cons]
        rw [ih (s + sp.parallel_samples) (by omega) t]
        constructor
        · rintro (rfl | ⟨k, rfl, hlt⟩)
          · exact ⟨0, by ring, by omega⟩
          · exact ⟨k + 1, by ring, hlt⟩
        · rintro ⟨k, rfl, hlt⟩
          cases k with
          | zero => left; ring
          | succ j => right; exact ⟨j, by ring, hlt⟩

theorem static_claims_from_nodup (sp : SplitParams) (hP : 0 < sp.parallel_samples) :
    ∀ fuel s, (static_claims_from sp fuel s).Nodup := by
  intro fuel
  induction fuel with
  | zero => intro s; simp [static_claims_from]
  | succ n ih =>
      intro s
      simp only [static_claims_from]
      by_cases hend : sp.end_sample ≤ s + sp.parallel_samples
      · rw [static_next_work, if_pos hend]; simp
      · rw [static_next_work, if_neg hend]
        simp only [List.nodup_cons]
        refine ⟨fun hmem => ?_, ih (s + sp.parallel_samples)⟩
        have := static_claims_from_gt sp hP n (s + sp.parallel_samples) _ hmem
        omega

theorem static_initial_sample_eq (sp : SplitParams) (i : Nat) :
    static_initial_sample sp i = sp.start_sample + i % sp.parallel_samples := by
  unfold static_initial_sample
  have h1 := Nat.div_add_mod i sp.parallel_samples
  have h2 : sp.parallel_samples * (i / sp.parallel_samples) =
      i / sp.parallel_samples * sp.parallel_samples := Nat.mul_comm _ _
  omega

theorem static_slot_samples_mem (sp : SplitParams) (hP : 0 < sp.parallel_samples)
    (i t : Nat) :
    t ∈ static_slot_samples sp sp.end_sample i ↔
      ∃ k, t = static_initial_sample sp i + k * sp.parallel_samples ∧
        t < sp.end_sample := by
  unfold static_slot_samples
  by_cases h0 : static_initial_sample sp i < sp.end_sample
  · rw [if_pos h0]
    simp only [List.mem_cons]
    rw [static_claims_from_mem sp hP sp.end_sample _ (by omega) t]
    constructor
    · rintro (rfl | ⟨k, rfl, hlt⟩)
      · exact ⟨0, by ring, h0⟩
      · exact ⟨k + 1, by ring, hlt⟩
    · rintro ⟨k, rfl, hlt⟩
      cases k with
      | zero => left; ring
      | succ j => right; exact ⟨j, by ring, hlt⟩
  · rw [if_neg h0]
    simp only [List.not_mem_nil, false_iff, not_exists]
    rintro k ⟨rfl, hlt⟩
    omega

theorem static_slot_samples_nodup (sp : SplitParams)
    (hP : 0 < sp.parallel_samples) (i : Nat) :
    (static_slot_samples sp sp.end_sample i).Nodup := by
  unfold static_slot_samples
  split_ifs with h0
  · simp only [List.nodup_cons]
    refine ⟨fun hmem => ?_, static_claims_from_nodup sp hP sp.end_sample _⟩
    have := static_claims_from_gt sp hP sp.end_sample _ _ hmem
    omega
  · simp

theorem static_all_claims_mem (sp : SplitParams) (hP : 0 < sp.parallel_samples)
    (p t : Nat) :
    (p, t) ∈ static_all_claims sp sp.end_sample ↔
      (p < sp.w * sp.h ∧ sp.start_sample ≤ t ∧ t < sp.end_sample) := by
  unfold static_all_claims
  rw [List.mem_flatMap]
  constructor
  · rintro ⟨i, hi, hmem⟩
    rw [List.mem_range] at hi
    rw [List.mem_map] at hmem
    obtain ⟨s, hs, heq⟩ := hmem
    rw [Prod.mk.injEq] at heq
    obtain ⟨hp, ht⟩ := heq
    subst hp
    subst ht
    rw [static_slot_samples_mem sp hP i s] at hs
    obtain ⟨k, rfl, hlt⟩ := hs
    refine ⟨?_, ?_, hlt⟩
    · have hi' : i < sp.parallel_samples * (sp.w * sp.h) := by
        have : sp.w * sp.h * sp.parallel_samples =
            sp.parallel_samples * (sp.w * sp.h) := by ring
        omega
      exact Nat.div_lt_of_lt_mul hi'
    · rw [static_initial_sample_eq]
      omega
  · rintro ⟨hp, hs1, hs2⟩
    refine ⟨p * sp.parallel_samples + (t - sp.start_sample) % sp.parallel_samples,
      ?_, ?_⟩
    · rw [List.mem_range]
      have hr : (t - sp.start_sample) % sp.parallel_samples < sp.parallel_samples :=
        Nat.mod_lt _ hP
      have e1 : (p + 1) * sp.parallel_samples =
          p * sp.parallel_samples + sp.parallel_samples := by ring
      have e2 : (p + 1) * sp.parallel_samples ≤ (sp.w * sp.h) * sp.parallel_samples :=
        Nat.mul_le_mul_right _ (by omega)
      have e3 : sp.w * sp.h * sp.parallel_samples =
          (sp.w * sp.h) * sp.parallel_samples := rfl
      omega
    · rw [List.mem_map]
      refine ⟨t, ?_, ?_⟩
      · rw [static_slot_samples_mem sp hP _ t]
        refine ⟨(t - sp.start_sample) / sp.parallel_samples, ?_, hs2⟩
        rw [static_initial_sample_eq]
        have em : (p * sp.parallel_samples +
            (t - sp.start_sample) % sp.parallel_samples) % sp.parallel_samples =
            (t - sp.start_sample) % sp.parallel_samples := by
          have e : p * sp.parallel_samples +
              (t - sp.start_sample) % sp.parallel_samples =
              sp.parallel_samples * p +
              (t - sp.start_sample) % sp.parallel_samples := by ring
          rw [e, Nat.mul_add_mod]
          exact Nat.mod_eq_of_lt (Nat.mod_lt _ hP)
        rw [em]
        have hd := Nat.div_add_mod (t - sp.start_sample) sp.parallel_samples
        have e5 : (t - sp.start_sample) / sp.parallel_samples * sp.parallel_samples =
            sp.parallel_samples * ((t - sp.start_sample) / sp.parallel_samples) := by
          ring
        omega
      · have ed : (p * sp.parallel_samples +
            (t - sp.start_sample) % sp.parallel_samples) / sp.parallel_samples = p := by
          have e : p * sp.parallel_samples +
              (t - sp.start_sample) % sp.parallel_samples =
              sp.parallel_samples * p +
              (t - sp.start_sample) % sp.parallel_samples := by ring
          rw [e, Nat.mul_add_div hP,
            Nat.div_eq_of_lt (Nat.mod_lt _ hP), Nat.add_zero]
        rw [ed]

theorem static_all_claims_nodup (sp : SplitParams)
    (hP : 0 < sp.parallel_samples) :
    (static_all_claims sp sp.end_sample).Nodup := by
  unfold static_all_claims
  rw [List.nodup_flatMap]
  constructor
  · intro i _
    have hinj : Function.Injective
        (fun s => ((i / sp.parallel_samples, s) : Nat × Nat)) :=
      fun a b h => congrArg Prod.snd h
    exact (static_slot_samples_nodup sp hP i).map hinj
  · refine (List.pairwise_lt_range _).imp ?_
    intro i j hij
    intro x hx hy
    rw [List.mem_map] at hx hy
    obtain ⟨s, hsi, hx⟩ := hx
    obtain ⟨s', hsj, hy⟩ := hy
    rw [← hy, Prod.mk.injEq] at hx
    obtain ⟨hdiv, hsame⟩ := hx
    subst hsame
    rw [static_slot_samples_mem sp hP i s] at hsi
    rw [static_slot_samples_mem sp hP j s] at hsj
    obtain ⟨k, hk, -⟩ := hsi
    obtain ⟨k', hk', -⟩ := hsj
    rw [static_initial_sample_eq] at hk hk'
    have hmodlt_i : i % sp.parallel_samples < sp.parallel_samples := Nat.mod_lt _ hP
    have hmodlt_j : j % sp.parallel_samples < sp.parallel_samples := Nat.mod_lt _ hP
    have heq : i % sp.parallel_samples + k * sp.parallel_samples =
        j % sp.parallel_samples + k' * sp.parallel_samples := by omega
    have hmi : (i % sp.parallel_samples + k * sp.parallel_samples) %
        sp.parallel_samples = i % sp.parallel_samples := by
      rw [Nat.add_mul_mod_self_right]
      exact Nat.mod_eq_of_lt hmodlt_i
    have hmj : (j % sp.parallel_samples + k' * sp.parallel_samples) %
        sp.parallel_samples = j % sp.parallel_samples := by
      rw [Nat.add_mul_mod_self_right]
      exact Nat.mod_eq_of_lt hmodlt_j
    have hmod : i % sp.parallel_samples = j % sp.parallel_samples := by
      rw [← hmi, ← hmj, heq]
    have d1 := Nat.div_add_mod i sp.parallel_samples
    have d2 := Nat.div_add_mod j sp.parallel_samples
    have hdd : sp.parallel_samples * (i / sp.parallel_samples) =
        sp.parallel_samples * (j / sp.parallel_samples) := by rw [hdiv]
    omega

theorem pool_claims_eq (sp : SplitParams) :
    ∀ fuel c, sp.w * sp.h * sp.num_samples ≤ c + fuel →
      pool_claims sp fuel ⟨c⟩ =
        (List.range (sp.w * sp.h * sp.num_samples - c)).map (fun x => c + x) := by
  intro fuel
  induction fuel with
  | zero =>
      intro c hfuel
      have h0 : sp.w * sp.h * sp.num_samples - c = 0 := by omega
      simp [pool_claims, h0]
  | succ n ih =>
      intro c hfuel
      simp only [pool_claims]
      by_cases hc : c < sp.w * sp.h * sp.num_samples
      · rw [get_next_work, if_pos hc]
        show c :: pool_claims sp n ⟨c + 1⟩ =
          (List.range (sp.w * sp.h * sp.num_samples - c)).map (fun x => c + x)
        rw [ih (c + 1) (by omega)]
        have hBc : sp.w * sp.h * sp.num_samples - c =
            (sp.w * sp.h * sp.num_samples - (c + 1)) + 1 := by omega
        rw [hBc, List.range_succ_eq_map, List.map_cons, List.map_map]
        refine congrArg₂ List.cons (by omega) ?_
        apply List.map_congr_left
        intro a _
        simp only [Function.comp]
        omega
      · rw [get_next_work, if_neg hc]
        have h0 : sp.w * sp.h * sp.num_samples - c = 0 := by omega
        simp [h0]

theorem ws_all_claims_eq (sp : SplitParams) :
    ws_all_claims sp (sp.w * sp.h * sp.num_samples) =
      (List.range (sp.w * sp.h * sp.num_samples)).map (ws_claim_pair sp) := by
  unfold ws_all_claims
  rw [pool_claims_eq sp _ 0 (by omega), Nat.sub_zero]
  have hmap : (List.range (sp.w * sp.h * sp.num_samples)).map (fun x => 0 + x) =
      List.range (sp.w * sp.h * sp.num_samples) := by
    have hcongr := List.map_congr_left
      (fun a _ => by simp : ∀ a ∈ List.range (sp.w * sp.h * sp.num_samples),
        (fun x => 0 + x) a = id a)
    rw [hcongr, List.map_id]
  rw [hmap]

theorem ws_all_claims_mem (sp : SplitParams) (p s : Nat) :
    (p, s) ∈ ws_all_claims sp (sp.w * sp.h * sp.num_samples) ↔
      (p < sp.w * sp.h ∧ sp.start_sample ≤ s ∧
       s < sp.start_sample + sp.num_samples) := by
  rw [ws_all_claims_eq, List.mem_map]
  constructor
  · rintro ⟨wk, hwk, heq⟩
    rw [List.mem_range] at hwk
    unfold ws_claim_pair get_my_sample at heq
    rw [Prod.mk.injEq] at heq
    obtain ⟨hp, hs⟩ := heq
    subst hp
    subst hs
    have hwh : 0 < sp.w * sp.h := by
      by_contra h0
      have hz : sp.w * sp.h = 0 := by omega
      have : sp.w * sp.h * sp.num_samples = 0 := by rw [hz, Nat.zero_mul]
      omega
    have hq : wk / (sp.w * sp.h) < sp.num_samples := Nat.div_lt_of_lt_mul hwk
    exact ⟨Nat.mod_lt _ hwh, Nat.le_add_right _ _, Nat.add_lt_add_left hq _⟩
  · rintro ⟨hp, hs1, hs2⟩
    have hwh : 0 < sp.w * sp.h := by omega
    refine ⟨(s - sp.start_sample) * (sp.w * sp.h) + p, ?_, ?_⟩
    · rw [List.mem_range]
      have hq : s - sp.start_sample < sp.num_samples := by omega
      have e1 : (s - sp.start_sample + 1) * (sp.w * sp.h) =
          (s - sp.start_sample) * (sp.w * sp.h) + sp.w * sp.h := by ring
      have e2 : (s - sp.start_sample + 1) * (sp.w * sp.h) ≤
          sp.num_samples * (sp.w * sp.h) := Nat.mul_le_mul_right _ (by omega)
      have e3 : sp.num_samples * (sp.w * sp.h) =
          sp.w * sp.h * sp.num_samples := by ring
      omega
    · unfold ws_claim_pair get_my_sample
      have e : (s - sp.start_sample) * (sp.w * sp.h) + p =
          (sp.w * sp.h) * (s - sp.start_sample) + p := by ring
      rw [Prod.mk.injEq]
      constructor
      · rw [e, Nat.mul_add_mod]
        exact Nat.mod_eq_of_lt hp
      · rw [e, Nat.mul_add_div hwh, Nat.div_eq_of_lt hp, Nat.add_zero]
        omega

theorem ws_all_claims_nodup (sp : SplitParams) :
    (ws_all_claims sp (sp.w * sp.h * sp.num_samples)).Nodup := by
  rw [ws_all_claims_eq]
  refine (List.nodup_range _).map_on ?_
  intro x hx y hy hf
  rw [List.mem_range] at hx hy
  unfold ws_claim_pair get_my_sample at hf
  rw [Prod.mk.injEq] at hf
  obtain ⟨h1, h2⟩ := hf
  have h3 : x / (sp.w * sp.h) = y / (sp.w * sp.h) := by omega
  have d1 := Nat.div_add_mod x (sp.w * sp.h)
  have d2 := Nat.div_add_mod y (sp.w * sp.h)
  have h4 : (sp.w * sp.h) * (x / (sp.w * sp.h)) =
      (sp.w * sp.h) * (y / (sp.w * sp.h)) := by rw [h3]
  omega

theorem count_pair_eq_count (a : Nat × Nat) (l : List (Nat × Nat)) :
    l.count a = @List.count _ instBEqOfDecidableEq a l := by
  induction l with
  | nil => rfl
  | cons b t ih =>
      rw [List.count_cons, @List.count_cons _ instBEqOfDecidableEq, ih]
      by_cases h : b = a <;> simp [instBEqOfDecidableEq, h]

/-- Claim C1: over a full run, each work-distribution policy claims every
(pixel, sample) pair of the configured range by exactly one ray slot exactly
once — no duplication, no omission.  Under the static partition, the claim
sequence of slot `i` is its initial sample followed by the iterated
`static_next_work` advances (the exact advance performed by the
`RAY_TO_REGENERATE` phase), against its fixed pixel `i / parallel_samples`;
the pairs so claimed by the pool of `w*h*parallel_samples` slots are counted.
Under work stealing, the tokens are those handed out by iterating
`get_next_work` until the shared pool is exhausted (each lane's claim is one
atomic counter increment, so any concurrent run serializes to this
sequence), decomposed by the fixed `ws_claim_pair` mapping. -/
theorem work_units_claimed_exactly_once (sp : SplitParams)
    (hP : 0 < sp.parallel_samples) :
    (∀ p s, (p < sp.w * sp.h ∧ sp.start_sample ≤ s ∧ s < sp.end_sample) ↔
      (static_all_claims sp sp.end_sample).count (p, s) = 1) ∧
    (∀ p s, (p < sp.w * sp.h ∧ sp.start_sample ≤ s ∧
        s < sp.start_sample + sp.num_samples) ↔
      (ws_all_claims sp (sp.w * sp.h * sp.num_samples)).count (p, s) = 1) := by
  constructor
  · intro p s
    rw [← static_all_claims_mem sp hP p s]
    constructor
    · intro hmem
      rw [count_pair_eq_count]
      exact List.count_eq_one_of_mem (static_all_claims_nodup sp hP) hmem
    · intro hcount
      have hpos : 0 < (static_all_claims sp sp.end_sample).count (p, s) := by
        omega
      exact List.count_pos_iff.mp hpos
  · intro p s
    rw [← ws_all_claims_mem sp p s]
    constructor
    · intro hmem
      rw [count_pair_eq_count]
      exact List.count_eq_one_of_mem (ws_all_claims_nodup sp) hmem
    · intro hcount
      have hpos : 0 <
          (ws_all_claims sp (sp.w * sp.h * sp.num_samples)).count (p, s) := by
        omega
      exact List.count_pos_iff.mp hpos

/-- Witness for C1 at the concrete 2x2-tile configuration with two parallel
samples and sample range [0, 4). -/
theorem work_units_claimed_exactly_once_holds :
    0 < spDemo.parallel_samples ∧
    ((∀ p s, (p < spDemo.w * spDemo.h ∧ spDemo.start_sample ≤ s ∧
        s < spDemo.end_sample) ↔
      (static_all_claims spDemo spDemo.end_sample).count (p, s) = 1) ∧
    (∀ p s, (p < spDemo.w * spDemo.h ∧ spDemo.start_sample ≤ s ∧
        s < spDemo.start_sample + spDemo.num_samples) ↔
      (ws_all_claims spDemo (spDemo.w * spDemo.h * spDemo.num_samples)).count (p, s) = 1)) :=
  ⟨by decide, work_units_claimed_exactly_once spDemo (by decide)⟩

end CyclesSplit
